import Mathlib

/-!
Shallow embedding of the RDP transport core of libcsp, src/src/transport/csp_rdp.c,
together with theorems checking the natural-language specification against it.

Modelling conventions:
- 16-bit sequence numbers and 32-bit millisecond timestamps are modelled as plain
  naturals. The specification explicitly declares wrap-around out of scope, so
  unsigned C subtractions are modelled as truncated Nat subtraction and theorems
  carry no-underflow hypotheses where the value of a subtraction matters.
- The global RDP lock serializes every operation, so each C function is modelled as
  an atomic state transformer. Lock acquisition failure and the wake-up of a sender
  blocked on tx_wait are environment events and appear as Boolean parameters.
- The buffer pool and the datagram interface are external collaborators. Packet
  allocation for the data path is modelled as succeeding, except in csp_rdp_send
  where an allocation-failure Boolean is a parameter because an error-path claim
  depends on it. Packets handed to csp_send_direct are collected in a log field.
- The application receive queue and the accept queue are modelled as unbounded:
  resource-exhaustion of user-facing queues is outside every claim.
-/

/-- Connection states, enum csp_rdp_states in csp_rdp.c. -/
inductive RdpState where
  | CLOSED
  | LISTEN
  | SYN_SENT
  | SYN_RCVD
  | OPEN
  | CLOSE_WAIT
deriving DecidableEq, Repr, Inhabited

/-- The 6-byte RDP header, rdp_header_t: four flags and two 16-bit numbers.
Byte-order conversion happens once at entry of csp_rdp_new_packet, so the model
stores host-order values directly. -/
structure RdpHeader where
  syn : Bool
  ack : Bool
  eak : Bool
  rst : Bool
  seq_nr : Nat
  ack_nr : Nat
deriving DecidableEq, Repr, Inhabited

/-- The six 32-bit words of a SYN payload (csp_rdp_send_syn / the LISTEN branch). -/
structure SynPayload where
  window_size : Nat
  conn_timeout : Nat
  packet_timeout : Nat
  delayed_acks : Nat
  ack_timeout : Nat
  ack_delay_count : Nat
deriving DecidableEq, Repr, Inhabited

/-- An RDP-framed packet as csp_rdp_new_packet sees it. dataLen is the payload
length in bytes excluding the 6-byte header, so the C test
packet_length > sizeof(rdp_header_t) becomes 0 < dataLen. eackSeqs is the list of
16-bit payload words that csp_rdp_flush_eack reads, and synP the SYN parameter
block read by the LISTEN branch. -/
structure Packet where
  hdr : RdpHeader
  dataLen : Nat
  eackSeqs : List Nat
  synP : SynPayload
deriving DecidableEq, Repr, Inhabited

/-- A fresh empty control packet as allocated by csp_rdp_send_cmp when its packet
argument is NULL. -/
def Packet.blank : Packet :=
  { hdr := { syn := false, ack := false, eak := false, rst := false, seq_nr := 0, ack_nr := 0 }
    dataLen := 0
    eackSeqs := []
    synP := { window_size := 0, conn_timeout := 0, packet_timeout := 0,
              delayed_acks := 0, ack_timeout := 0, ack_delay_count := 0 } }

/-- One element of the retransmission queue, rdp_packet_t: a clone of an outgoing
segment tagged with its send timestamp. The clone carries its own header, whose
ack_nr field the timeout sweep rewrites in place. -/
structure TxEntry where
  timestamp : Nat
  hdr : RdpHeader
  dataLen : Nat
deriving DecidableEq, Repr, Inhabited

/-- The conn-rx_socket field: NULL, a pointer to an accept queue, or the
sentinel value 1 meaning the connection handle was already passed to userspace. -/
inductive RxSocket where
  | null
  | socket
  | handed
deriving DecidableEq, Repr, Inhabited

/-- The per-connection RDP state: the rdp sub-struct of csp_conn_t plus the
connection-level fields csp_rdp.c touches. app_rx_queue is the application
receive queue conn-rx_queue, holding either a delivered data segment, recorded by
its seq_nr, or the NULL sentinel. sent is model instrumentation: the log of
packets handed to csp_send_direct. -/
structure RdpConn where
  state : RdpState
  snd_iss : Nat
  snd_nxt : Nat
  snd_una : Nat
  rcv_cur : Nat
  rcv_irs : Nat
  rcv_lsa : Nat
  window_size : Nat
  conn_timeout : Nat
  packet_timeout : Nat
  delayed_acks : Nat
  ack_timeout : Nat
  ack_delay_count : Nat
  ack_timestamp : Nat
  open_timestamp : Nat
  rx_socket : RxSocket
  tx_queue : List TxEntry
  rdp_rx_queue : List Packet
  app_rx_queue : List (Option Nat)
  sent : List Packet
deriving DecidableEq, Repr, Inhabited

/-- Build-time configuration: the CSP_DELAY_ACKS compile flag and the
CSP_RDP_MAX_WINDOW queue bound (tx_queue capacity; rx_queue capacity is twice it). -/
structure BuildCfg where
  delayAcks : Bool
  maxWindow : Nat
deriving DecidableEq, Repr, Inhabited

/-- Modelled from the spec: csp_close lives in csp_conn.c, which is not part of
this repository snapshot. Per the spec lifecycle, closing sets the state to CLOSED,
and per flush_all both RDP queues are freed; the application receive queue is
drained when the handle returns to the pool. -/
def csp_close (c : RdpConn) : RdpConn :=
  { c with state := RdpState.CLOSED, tx_queue := [], rdp_rx_queue := [], app_rx_queue := [] }

/-- Control-message sender csp_rdp_send_cmp: overwrite the header of the given
packet, or of a fresh one, enqueue a timestamped clone on tx_queue when copy is
set and the queue has room, hand the packet to csp_send_direct, and under
CSP_DELAY_ACKS record the acknowledged number and the ACK time. -/
def csp_rdp_send_cmp (cfg : BuildCfg) (now : Nat) (c : RdpConn) (pkt : Option Packet)
    (ack syn rst eak : Bool) (seq_nr ack_nr : Nat) (copy : Bool) : RdpConn :=
  let base := pkt.getD Packet.blank
  let out : Packet := { base with
    hdr := { syn := syn, ack := ack, eak := eak, rst := rst, seq_nr := seq_nr, ack_nr := ack_nr } }
  let c := if copy then
      (if c.tx_queue.length < cfg.maxWindow then
        { c with tx_queue := c.tx_queue ++ [{ timestamp := now, hdr := out.hdr, dataLen := out.dataLen }] }
      else c)
    else c
  let c := { c with sent := c.sent ++ [out] }
  if cfg.delayAcks && ack then { c with rcv_lsa := ack_nr, ack_timestamp := now } else c

/-- EACK sender csp_rdp_send_eack: collect the seq_nr of every reassembly-queue
entry, in queue order, as the EACK payload; each entry is dequeued and immediately
re-enqueued so the queue is unchanged. The result is sent with
seq_nr = snd_nxt and ack_nr = rcv_cur. -/
def csp_rdp_send_eack (cfg : BuildCfg) (now : Nat) (c : RdpConn) : RdpConn :=
  let words := c.rdp_rx_queue.map (fun q => q.hdr.seq_nr)
  let pkt : Packet := { Packet.blank with dataLen := 2 * words.length, eackSeqs := words }
  csp_rdp_send_cmp cfg now c (some pkt) true false false true c.snd_nxt c.rcv_cur false

/-- Delivery to userspace, csp_rdp_receive_data: post the connection handle on a
first arrival, strip the RDP header and enqueue the data on the application
receive queue. The accept queue and the application queue are modelled as
unbounded, so the two failure returns of the C function cannot occur here. -/
def csp_rdp_receive_data (c : RdpConn) (pkt : Packet) : RdpConn :=
  let c := if c.rx_socket = RxSocket.socket then { c with rx_socket := RxSocket.handed } else c
  { c with app_rx_queue := c.app_rx_queue ++ [some pkt.hdr.seq_nr] }

/-- One pass of the reassembly-queue scan in csp_rdp_rx_queue_flush: dequeue
entries one at a time, re-enqueueing non-matching ones at the back. On a match
the remaining entries followed by the re-enqueued prefix form the new queue, the
rotation the C dequeue and enqueue calls produce; if the full pass finds no match
every entry has been re-enqueued once and the queue is back in its original order. -/
def rxScan (target : Nat) : List Packet → List Packet → Option (Packet × List Packet)
  | [], _ => none
  | p :: ps, acc =>
    if p.hdr.seq_nr = target then some (p, ps ++ acc)
    else rxScan target ps (acc ++ [p])

/-- Fuelled restart loop of csp_rdp_rx_queue_flush: deliver any entry carrying
rcv_cur + 1, bump rcv_cur, and restart the scan. Each successful scan removes one
entry, so a fuel of the initial queue length is enough: when it runs out the
queue is empty and the C loop would stop as well. -/
def rxFlushGo : Nat → RdpConn → RdpConn
  | 0, c => c
  | fuel + 1, c =>
    match rxScan (c.rcv_cur + 1) c.rdp_rx_queue [] with
    | none => c
    | some pq =>
      let c1 := csp_rdp_receive_data { c with rdp_rx_queue := pq.2 } pq.1
      rxFlushGo fuel { c1 with rcv_cur := c1.rcv_cur + 1 }

/-- Reassembly-queue drain csp_rdp_rx_queue_flush. -/
def csp_rdp_rx_queue_flush (c : RdpConn) : RdpConn :=
  rxFlushGo c.rdp_rx_queue.length c

/-- Duplicate test csp_rdp_rx_queue_exists: a full rotation of the queue looking
for a matching seq_nr, leaving the queue unchanged. -/
def csp_rdp_rx_queue_exists (c : RdpConn) (seq_nr : Nat) : Bool :=
  c.rdp_rx_queue.any (fun p => p.hdr.seq_nr = seq_nr)

/-- Reassembly insert csp_rdp_rx_queue_add: reject duplicates, then enqueue; the
enqueue itself fails when the queue is at its bound of twice CSP_RDP_MAX_WINDOW.
Returns the C success flag together with the new state. -/
def csp_rdp_rx_queue_add (cfg : BuildCfg) (c : RdpConn) (pkt : Packet) (seq_nr : Nat) :
    Bool × RdpConn :=
  if csp_rdp_rx_queue_exists c seq_nr then (false, c)
  else if c.rdp_rx_queue.length < 2 * cfg.maxWindow then
    (true, { c with rdp_rx_queue := c.rdp_rx_queue ++ [pkt] })
  else (false, c)

/-- Body of the csp_rdp_flush_eack loop over the original tx_queue entries.
For each entry the inner loop over the EACK payload words sets a match flag on
equality and rewrites the timestamp to now minus packet_timeout whenever some
word is strictly greater; matched entries are freed, others re-enqueued at the
back, so survivors keep their original order. -/
def eackSweep (words : List Nat) (now pt : Nat) : List TxEntry → List TxEntry
  | [] => []
  | e :: es =>
    let e1 := if words.any (fun w => e.hdr.seq_nr < w) then { e with timestamp := now - pt } else e
    if words.any (fun w => w = e.hdr.seq_nr) then eackSweep words now pt es
    else e1 :: eackSweep words now pt es

/-- Selective-acknowledgement flush csp_rdp_flush_eack. -/
def csp_rdp_flush_eack (now : Nat) (c : RdpConn) (eack_packet : Packet) : RdpConn :=
  { c with tx_queue := eackSweep eack_packet.eackSeqs now c.packet_timeout c.tx_queue }

/-- Timeout sweep over the tx_queue in csp_rdp_check_timeouts: entries already
acknowledged, seq_nr below snd_una, are freed; entries whose timestamp plus
packet_timeout is strictly below now get their ack_nr rewritten to rcv_cur and
their timestamp refreshed, and a clone goes to csp_send_direct; every survivor is
re-enqueued at the back, so the result keeps the original order. Returns the new
queue together with the clones handed to the interface. -/
def txSweep (now snd_una rcv_cur pt : Nat) : List TxEntry → List TxEntry × List Packet
  | [] => ([], [])
  | e :: es =>
    let rest := txSweep now snd_una rcv_cur pt es
    if e.hdr.seq_nr < snd_una then rest
    else if e.timestamp + pt < now then
      let e1 : TxEntry := { e with hdr := { e.hdr with ack_nr := rcv_cur }, timestamp := now }
      (e1 :: rest.1, { Packet.blank with hdr := e1.hdr, dataLen := e1.dataLen } :: rest.2)
    else (e :: rest.1, rest.2)

/-- Periodic tick csp_rdp_check_timeouts: close a connection stuck on the accept
queue past conn_timeout, close after the CLOSE_WAIT timeout, run the
retransmission sweep, and under CSP_DELAY_ACKS emit a catch-up ACK when an
unacknowledged segment aged past ack_timeout. The final tx_wait post is a pure
signal and leaves the modelled state unchanged. -/
def csp_rdp_check_timeouts (cfg : BuildCfg) (now : Nat) (c : RdpConn) : RdpConn :=
  if c.rx_socket = RxSocket.socket ∧ c.open_timestamp + c.conn_timeout < now then
    csp_close c
  else if c.state = RdpState.CLOSE_WAIT ∧ c.open_timestamp + c.conn_timeout < now then
    csp_close c
  else
    let swept := txSweep now c.snd_una c.rcv_cur c.packet_timeout c.tx_queue
    let c := { c with tx_queue := swept.1, sent := c.sent ++ swept.2 }
    if cfg.delayAcks && decide (c.rcv_lsa < c.rcv_cur) && decide (c.ack_timeout < now - c.ack_timestamp) then
      csp_rdp_send_cmp cfg now c none true false false false c.snd_nxt c.rcv_cur false
    else c

/-- Passive-open promotion at the top of csp_rdp_new_packet: the first packet on
a CLOSED connection sets snd_iss to 2000 and moves to LISTEN before any other
processing. -/
def rdpPromote (c : RdpConn) : RdpConn :=
  if c.state = RdpState.CLOSED then
    { c with snd_iss := 2000, snd_nxt := 2001, snd_una := 2000, state := RdpState.LISTEN }
  else c

/-- The discard_close label of csp_rdp_new_packet: when userspace already holds
the connection handle, wake it with a NULL sentinel on the application receive
queue; the packet itself is then freed. No state field changes here. -/
def rdpDiscardClose (c : RdpConn) : RdpConn :=
  if c.rx_socket = RxSocket.handed then { c with app_rx_queue := c.app_rx_queue ++ [none] }
  else c

/-- RST processing of csp_rdp_new_packet: first fold any piggybacked ACK into
snd_una, then either finish closing from CLOSE_WAIT, or on an in-sequence RST
reply with RST plus ACK and move to CLOSE_WAIT, or discard an out-of-sequence RST
leaving the connection as it was. -/
def rdpHandleRst (cfg : BuildCfg) (now : Nat) (c : RdpConn) (p : Packet) : RdpConn :=
  let c := if p.hdr.ack then { c with snd_una := p.hdr.ack_nr + 1 } else c
  if c.state = RdpState.CLOSE_WAIT then csp_close c
  else if p.hdr.seq_nr = c.rcv_cur + 1 then
    let c := csp_rdp_send_cmp cfg now c none true false true false c.snd_nxt c.rcv_cur false
    rdpDiscardClose { c with state := RdpState.CLOSE_WAIT }
  else c

/-- Rejection response for an out-of-window sequence number in the shared
SYN_RCVD and OPEN branch: in SYN_RCVD the SYN plus ACK is retransmitted, keeping
a copy; in OPEN an EACK is emitted; the packet is then discarded. -/
def rdpSeqReject (cfg : BuildCfg) (now : Nat) (c : RdpConn) : RdpConn :=
  let c := if c.state = RdpState.SYN_RCVD then
      csp_rdp_send_cmp cfg now c none true true false false c.snd_iss c.rcv_irs true
    else c
  let c := if c.state = RdpState.OPEN then csp_rdp_send_eack cfg now c else c
  c

/-- Tail of the shared SYN_RCVD and OPEN branch, entered after the snd_una
update: EACK flush, the bare-ACK early exit, the reassembly insert with EACK
reply for out-of-order data, or in-order delivery with the delayed-ACK rule and
the reassembly drain. -/
def rdpDataPhase (cfg : BuildCfg) (now : Nat) (c : RdpConn) (p : Packet) : RdpConn :=
  if p.hdr.eak then
    (if 0 < p.dataLen then csp_rdp_flush_eack now c p else c)
  else if p.dataLen = 0 then c
  else if c.rcv_cur + 1 ≠ p.hdr.seq_nr then
    (match csp_rdp_rx_queue_add cfg c p p.hdr.seq_nr with
     | (false, c) => c
     | (true, c) => csp_rdp_send_eack cfg now c)
  else
    let seq := p.hdr.seq_nr
    let c := csp_rdp_receive_data c p
    let c := { c with rcv_cur := seq }
    let c := if cfg.delayAcks then
        (if c.rcv_lsa + c.ack_delay_count < c.rcv_cur then
          csp_rdp_send_cmp cfg now c none true false false false c.snd_nxt c.rcv_cur false
        else c)
      else csp_rdp_send_cmp cfg now c none true false false false c.snd_nxt c.rcv_cur false
    csp_rdp_rx_queue_flush c

/-- The shared SYN_RCVD and OPEN branch of csp_rdp_new_packet: flag validity,
the sequence-number window, the two ACK-number boundaries, the SYN_RCVD ACK check
with the transition to OPEN, the snd_una update, then the data phase. -/
def rdpOpenStates (cfg : BuildCfg) (now : Nat) (c : RdpConn) (p : Packet) : RdpConn :=
  if p.hdr.syn || !p.hdr.ack then rdpDiscardClose c
  else if p.hdr.seq_nr ≤ c.rcv_cur || c.rcv_cur + c.window_size * 2 < p.hdr.seq_nr then
    rdpSeqReject cfg now c
  else if c.snd_nxt ≤ p.hdr.ack_nr then rdpDiscardClose c
  else if p.hdr.ack_nr < c.snd_una - 1 - c.window_size * 2 then rdpDiscardClose c
  else if c.state = RdpState.SYN_RCVD ∧ p.hdr.ack_nr ≠ c.snd_iss then rdpDiscardClose c
  else
    let c := if c.state = RdpState.SYN_RCVD then { c with state := RdpState.OPEN } else c
    let c := { c with snd_una := p.hdr.ack_nr + 1 }
    rdpDataPhase cfg now c p

/-- The LISTEN branch: an ACK is answered with RST and closes; a SYN records the
peer's initial sequence number, adopts the six negotiated parameters from the SYN
payload, answers with SYN plus ACK, keeping a retransmission copy, and moves to
SYN_RCVD; anything else closes. -/
def rdpListen (cfg : BuildCfg) (now : Nat) (c : RdpConn) (p : Packet) : RdpConn :=
  if p.hdr.ack then
    rdpDiscardClose (csp_rdp_send_cmp cfg now c none false false true false c.snd_nxt c.rcv_cur false)
  else if p.hdr.syn then
    let c := { c with
      rcv_cur := p.hdr.seq_nr, rcv_irs := p.hdr.seq_nr,
      rcv_lsa := if cfg.delayAcks then p.hdr.seq_nr else c.rcv_lsa,
      state := RdpState.SYN_RCVD,
      window_size := p.synP.window_size, conn_timeout := p.synP.conn_timeout,
      packet_timeout := p.synP.packet_timeout, delayed_acks := p.synP.delayed_acks,
      ack_timeout := p.synP.ack_timeout, ack_delay_count := p.synP.ack_delay_count }
    csp_rdp_send_cmp cfg now c none true true false false c.snd_iss c.rcv_irs true
  else rdpDiscardClose c

/-- The SYN_SENT branch: a SYN plus ACK completes the handshake and opens the
connection, with either an immediate ACK or, under CSP_DELAY_ACKS, only the
rcv_lsa bookkeeping; a bare ACK means a half-open peer and is answered with RST;
anything else closes. -/
def rdpSynSent (cfg : BuildCfg) (now : Nat) (c : RdpConn) (p : Packet) : RdpConn :=
  if p.hdr.syn && p.hdr.ack then
    let c := { c with rcv_cur := p.hdr.seq_nr, rcv_irs := p.hdr.seq_nr,
                      snd_una := p.hdr.ack_nr + 1, state := RdpState.OPEN }
    if cfg.delayAcks then { c with rcv_lsa := p.hdr.seq_nr - 1 }
    else csp_rdp_send_cmp cfg now c none true false false false c.snd_nxt c.rcv_cur false
  else if p.hdr.ack then
    csp_rdp_send_cmp cfg now c none false false true false c.snd_nxt c.rcv_cur false
  else rdpDiscardClose c

/-- The CLOSE_WAIT branch: both ACK boundaries are checked, an in-range ACK
updates snd_una and is answered with RST plus ACK, an out-of-range one is
silently discarded. -/
def rdpCloseWait (cfg : BuildCfg) (now : Nat) (c : RdpConn) (p : Packet) : RdpConn :=
  if c.snd_nxt ≤ p.hdr.ack_nr then c
  else if p.hdr.ack_nr < c.snd_una - 1 - c.window_size * 2 then c
  else
    let c := { c with snd_una := p.hdr.ack_nr + 1 }
    csp_rdp_send_cmp cfg now c none true false true false c.snd_nxt c.rcv_cur false

/-- Inbound packet processing csp_rdp_new_packet: passive-open promotion, RST
handling, then the per-state switch. The lock acquisition is modelled as
succeeding; packet freeing is implicit. -/
def csp_rdp_new_packet (cfg : BuildCfg) (now : Nat) (c0 : RdpConn) (p : Packet) : RdpConn :=
  let c := rdpPromote c0
  if p.hdr.rst then rdpHandleRst cfg now c p
  else
    match c.state with
    | RdpState.LISTEN => rdpListen cfg now c p
    | RdpState.SYN_SENT => rdpSynSent cfg now c p
    | RdpState.SYN_RCVD => rdpOpenStates cfg now c p
    | RdpState.OPEN => rdpOpenStates cfg now c p
    | RdpState.CLOSE_WAIT => rdpCloseWait cfg now c p
    | RdpState.CLOSED => rdpDiscardClose c

/-- Outbound send csp_rdp_send. lockOk models the two rdp_lock acquisitions,
wake the outcome of the tx_wait wait when the window is full, true for a wake-up
within the timeout and false for a timeout, and allocOk the clone allocation.
The caller keeps ownership of the original packet; the model returns the C
success flag. After a wake-up the window condition is not re-checked, and snd_nxt
is incremented before the clone is allocated and enqueued, exactly as in the
source. -/
def csp_rdp_send (cfg : BuildCfg) (now : Nat) (c : RdpConn) (dataLen : Nat)
    (lockOk wake allocOk : Bool) : Bool × RdpConn :=
  if !lockOk then (false, c)
  else if c.state ≠ RdpState.OPEN then (false, c)
  else if c.window_size ≤ c.snd_nxt - c.snd_una + 1 && !wake then (false, c)
  else
    let hdr : RdpHeader := { syn := false, ack := true, eak := false, rst := false,
                             seq_nr := c.snd_nxt, ack_nr := c.rcv_cur }
    let c := { c with snd_nxt := c.snd_nxt + 1 }
    if !allocOk then (false, c)
    else if cfg.maxWindow ≤ c.tx_queue.length then (false, c)
    else (true, { c with tx_queue := c.tx_queue ++ [{ timestamp := now, hdr := hdr, dataLen := dataLen }] })

/-! Projection lemmas: which fields each helper operation leaves untouched. -/

theorem send_cmp_state (cfg now c pkt a s r e sq an cp) :
    (csp_rdp_send_cmp cfg now c pkt a s r e sq an cp).state = c.state := by
  simp only [csp_rdp_send_cmp]
  split <;> split <;> (try split) <;> rfl

theorem send_cmp_snd_iss (cfg now c pkt a s r e sq an cp) :
    (csp_rdp_send_cmp cfg now c pkt a s r e sq an cp).snd_iss = c.snd_iss := by
  simp only [csp_rdp_send_cmp]
  split <;> split <;> (try split) <;> rfl

theorem send_cmp_snd_nxt (cfg now c pkt a s r e sq an cp) :
    (csp_rdp_send_cmp cfg now c pkt a s r e sq an cp).snd_nxt = c.snd_nxt := by
  simp only [csp_rdp_send_cmp]
  split <;> split <;> (try split) <;> rfl

theorem send_cmp_snd_una (cfg now c pkt a s r e sq an cp) :
    (csp_rdp_send_cmp cfg now c pkt a s r e sq an cp).snd_una = c.snd_una := by
  simp only [csp_rdp_send_cmp]
  split <;> split <;> (try split) <;> rfl

theorem send_cmp_rcv_cur (cfg now c pkt a s r e sq an cp) :
    (csp_rdp_send_cmp cfg now c pkt a s r e sq an cp).rcv_cur = c.rcv_cur := by
  simp only [csp_rdp_send_cmp]
  split <;> split <;> (try split) <;> rfl

theorem send_cmp_rcv_irs (cfg now c pkt a s r e sq an cp) :
    (csp_rdp_send_cmp cfg now c pkt a s r e sq an cp).rcv_irs = c.rcv_irs := by
  simp only [csp_rdp_send_cmp]
  split <;> split <;> (try split) <;> rfl

theorem send_cmp_rdp_rx_queue (cfg now c pkt a s r e sq an cp) :
    (csp_rdp_send_cmp cfg now c pkt a s r e sq an cp).rdp_rx_queue = c.rdp_rx_queue := by
  simp only [csp_rdp_send_cmp]
  split <;> split <;> (try split) <;> rfl

theorem send_cmp_app_rx_queue (cfg now c pkt a s r e sq an cp) :
    (csp_rdp_send_cmp cfg now c pkt a s r e sq an cp).app_rx_queue = c.app_rx_queue := by
  simp only [csp_rdp_send_cmp]
  split <;> split <;> (try split) <;> rfl

theorem send_cmp_rx_socket (cfg now c pkt a s r e sq an cp) :
    (csp_rdp_send_cmp cfg now c pkt a s r e sq an cp).rx_socket = c.rx_socket := by
  simp only [csp_rdp_send_cmp]
  split <;> split <;> (try split) <;> rfl

theorem send_cmp_sent (cfg now c pkt a s r e sq an cp) :
    (csp_rdp_send_cmp cfg now c pkt a s r e sq an cp).sent =
      c.sent ++ [{ pkt.getD Packet.blank with
        hdr := { syn := s, ack := a, eak := e, rst := r, seq_nr := sq, ack_nr := an } }] := by
  simp only [csp_rdp_send_cmp]
  split <;> split <;> (try split) <;> rfl

theorem send_cmp_tx_queue_nocopy (cfg now c pkt a s r e sq an) :
    (csp_rdp_send_cmp cfg now c pkt a s r e sq an false).tx_queue = c.tx_queue := by
  simp only [csp_rdp_send_cmp]
  split <;> rfl

theorem send_eack_state (cfg now c) : (csp_rdp_send_eack cfg now c).state = c.state := by
  simp only [csp_rdp_send_eack, send_cmp_state]

theorem send_eack_snd_iss (cfg now c) : (csp_rdp_send_eack cfg now c).snd_iss = c.snd_iss := by
  simp only [csp_rdp_send_eack, send_cmp_snd_iss]

theorem send_eack_snd_nxt (cfg now c) : (csp_rdp_send_eack cfg now c).snd_nxt = c.snd_nxt := by
  simp only [csp_rdp_send_eack, send_cmp_snd_nxt]

theorem send_eack_snd_una (cfg now c) : (csp_rdp_send_eack cfg now c).snd_una = c.snd_una := by
  simp only [csp_rdp_send_eack, send_cmp_snd_una]

theorem send_eack_rcv_cur (cfg now c) : (csp_rdp_send_eack cfg now c).rcv_cur = c.rcv_cur := by
  simp only [csp_rdp_send_eack, send_cmp_rcv_cur]

theorem send_eack_rcv_irs (cfg now c) : (csp_rdp_send_eack cfg now c).rcv_irs = c.rcv_irs := by
  simp only [csp_rdp_send_eack, send_cmp_rcv_irs]

theorem send_eack_rdp_rx_queue (cfg now c) :
    (csp_rdp_send_eack cfg now c).rdp_rx_queue = c.rdp_rx_queue := by
  simp only [csp_rdp_send_eack, send_cmp_rdp_rx_queue]

theorem send_eack_app_rx_queue (cfg now c) :
    (csp_rdp_send_eack cfg now c).app_rx_queue = c.app_rx_queue := by
  simp only [csp_rdp_send_eack, send_cmp_app_rx_queue]

theorem send_eack_rx_socket (cfg now c) :
    (csp_rdp_send_eack cfg now c).rx_socket = c.rx_socket := by
  simp only [csp_rdp_send_eack, send_cmp_rx_socket]

theorem send_eack_tx_queue (cfg now c) : (csp_rdp_send_eack cfg now c).tx_queue = c.tx_queue := by
  simp only [csp_rdp_send_eack, send_cmp_tx_queue_nocopy]

theorem send_eack_sent (cfg now c) :
    (csp_rdp_send_eack cfg now c).sent = c.sent ++
      [{ Packet.blank with
          hdr := { syn := false, ack := true, eak := true, rst := false,
                   seq_nr := c.snd_nxt, ack_nr := c.rcv_cur },
          dataLen := 2 * (c.rdp_rx_queue.map (fun q => q.hdr.seq_nr)).length,
          eackSeqs := c.rdp_rx_queue.map (fun q => q.hdr.seq_nr) }] := by
  simp only [csp_rdp_send_eack, send_cmp_sent]
  rfl

theorem receive_data_state (c pkt) : (csp_rdp_receive_data c pkt).state = c.state := by
  simp only [csp_rdp_receive_data]
  split <;> rfl

theorem receive_data_snd_nxt (c pkt) : (csp_rdp_receive_data c pkt).snd_nxt = c.snd_nxt := by
  simp only [csp_rdp_receive_data]
  split <;> rfl

theorem receive_data_snd_una (c pkt) : (csp_rdp_receive_data c pkt).snd_una = c.snd_una := by
  simp only [csp_rdp_receive_data]
  split <;> rfl

theorem receive_data_snd_iss (c pkt) : (csp_rdp_receive_data c pkt).snd_iss = c.snd_iss := by
  simp only [csp_rdp_receive_data]
  split <;> rfl

theorem receive_data_rcv_cur (c pkt) : (csp_rdp_receive_data c pkt).rcv_cur = c.rcv_cur := by
  simp only [csp_rdp_receive_data]
  split <;> rfl

theorem receive_data_rcv_irs (c pkt) : (csp_rdp_receive_data c pkt).rcv_irs = c.rcv_irs := by
  simp only [csp_rdp_receive_data]
  split <;> rfl

theorem receive_data_rcv_lsa (c pkt) : (csp_rdp_receive_data c pkt).rcv_lsa = c.rcv_lsa := by
  simp only [csp_rdp_receive_data]
  split <;> rfl

theorem receive_data_tx_queue (c pkt) : (csp_rdp_receive_data c pkt).tx_queue = c.tx_queue := by
  simp only [csp_rdp_receive_data]
  split <;> rfl

theorem receive_data_rdp_rx_queue (c pkt) :
    (csp_rdp_receive_data c pkt).rdp_rx_queue = c.rdp_rx_queue := by
  simp only [csp_rdp_receive_data]
  split <;> rfl

theorem receive_data_sent (c pkt) : (csp_rdp_receive_data c pkt).sent = c.sent := by
  simp only [csp_rdp_receive_data]
  split <;> rfl

theorem receive_data_app_rx_queue (c pkt) :
    (csp_rdp_receive_data c pkt).app_rx_queue = c.app_rx_queue ++ [some pkt.hdr.seq_nr] := by
  simp only [csp_rdp_receive_data]
  split <;> rfl

theorem discard_close_state (c) : (rdpDiscardClose c).state = c.state := by
  simp only [rdpDiscardClose]
  split <;> rfl

theorem discard_close_snd_iss (c) : (rdpDiscardClose c).snd_iss = c.snd_iss := by
  simp only [rdpDiscardClose]
  split <;> rfl

theorem discard_close_snd_nxt (c) : (rdpDiscardClose c).snd_nxt = c.snd_nxt := by
  simp only [rdpDiscardClose]
  split <;> rfl

theorem discard_close_snd_una (c) : (rdpDiscardClose c).snd_una = c.snd_una := by
  simp only [rdpDiscardClose]
  split <;> rfl

theorem discard_close_rcv_cur (c) : (rdpDiscardClose c).rcv_cur = c.rcv_cur := by
  simp only [rdpDiscardClose]
  split <;> rfl

theorem discard_close_rcv_irs (c) : (rdpDiscardClose c).rcv_irs = c.rcv_irs := by
  simp only [rdpDiscardClose]
  split <;> rfl

theorem discard_close_tx_queue (c) : (rdpDiscardClose c).tx_queue = c.tx_queue := by
  simp only [rdpDiscardClose]
  split <;> rfl

theorem discard_close_rdp_rx_queue (c) : (rdpDiscardClose c).rdp_rx_queue = c.rdp_rx_queue := by
  simp only [rdpDiscardClose]
  split <;> rfl

theorem discard_close_sent (c) : (rdpDiscardClose c).sent = c.sent := by
  simp only [rdpDiscardClose]
  split <;> rfl

theorem discard_close_app_rx_queue (c) :
    (rdpDiscardClose c).app_rx_queue =
      c.app_rx_queue ++ (if c.rx_socket = RxSocket.handed then [none] else []) := by
  simp only [rdpDiscardClose]
  split <;> simp

theorem flush_eack_only_tx (now c p) :
    (csp_rdp_flush_eack now c p) =
      { c with tx_queue := eackSweep p.eackSeqs now c.packet_timeout c.tx_queue } := by
  rfl

theorem rxFlushGo_state : ∀ (fuel : Nat) (c : RdpConn), (rxFlushGo fuel c).state = c.state := by
  intro fuel
  induction fuel with
  | zero => intro c; rfl
  | succ n ih =>
    intro c
    rw [rxFlushGo]
    cases h : rxScan (c.rcv_cur + 1) c.rdp_rx_queue [] with
    | none => rfl
    | some pq => rw [ih]; simp [csp_rdp_receive_data]; split <;> rfl

theorem rxFlushGo_snd_nxt : ∀ (fuel : Nat) (c : RdpConn),
    (rxFlushGo fuel c).snd_nxt = c.snd_nxt := by
  intro fuel
  induction fuel with
  | zero => intro c; rfl
  | succ n ih =>
    intro c
    rw [rxFlushGo]
    cases h : rxScan (c.rcv_cur + 1) c.rdp_rx_queue [] with
    | none => rfl
    | some pq => rw [ih]; simp [csp_rdp_receive_data]; split <;> rfl

theorem rxFlushGo_snd_una : ∀ (fuel : Nat) (c : RdpConn),
    (rxFlushGo fuel c).snd_una = c.snd_una := by
  intro fuel
  induction fuel with
  | zero => intro c; rfl
  | succ n ih =>
    intro c
    rw [rxFlushGo]
    cases h : rxScan (c.rcv_cur + 1) c.rdp_rx_queue [] with
    | none => rfl
    | some pq => rw [ih]; simp [csp_rdp_receive_data]; split <;> rfl

theorem rxFlushGo_snd_iss : ∀ (fuel : Nat) (c : RdpConn),
    (rxFlushGo fuel c).snd_iss = c.snd_iss := by
  intro fuel
  induction fuel with
  | zero => intro c; rfl
  | succ n ih =>
    intro c
    rw [rxFlushGo]
    cases h : rxScan (c.rcv_cur + 1) c.rdp_rx_queue [] with
    | none => rfl
    | some pq => rw [ih]; simp [csp_rdp_receive_data]; split <;> rfl

theorem rxFlushGo_rcv_irs : ∀ (fuel : Nat) (c : RdpConn),
    (rxFlushGo fuel c).rcv_irs = c.rcv_irs := by
  intro fuel
  induction fuel with
  | zero => intro c; rfl
  | succ n ih =>
    intro c
    rw [rxFlushGo]
    cases h : rxScan (c.rcv_cur + 1) c.rdp_rx_queue [] with
    | none => rfl
    | some pq => rw [ih]; simp [csp_rdp_receive_data]; split <;> rfl

theorem rxFlushGo_tx_queue : ∀ (fuel : Nat) (c : RdpConn),
    (rxFlushGo fuel c).tx_queue = c.tx_queue := by
  intro fuel
  induction fuel with
  | zero => intro c; rfl
  | succ n ih =>
    intro c
    rw [rxFlushGo]
    cases h : rxScan (c.rcv_cur + 1) c.rdp_rx_queue [] with
    | none => rfl
    | some pq => rw [ih]; simp [csp_rdp_receive_data]; split <;> rfl

theorem rxFlushGo_sent : ∀ (fuel : Nat) (c : RdpConn), (rxFlushGo fuel c).sent = c.sent := by
  intro fuel
  induction fuel with
  | zero => intro c; rfl
  | succ n ih =>
    intro c
    rw [rxFlushGo]
    cases h : rxScan (c.rcv_cur + 1) c.rdp_rx_queue [] with
    | none => rfl
    | some pq => rw [ih]; simp [csp_rdp_receive_data]; split <;> rfl

theorem rx_queue_flush_state (c) : (csp_rdp_rx_queue_flush c).state = c.state :=
  rxFlushGo_state c.rdp_rx_queue.length c

theorem rx_queue_flush_snd_nxt (c) : (csp_rdp_rx_queue_flush c).snd_nxt = c.snd_nxt :=
  rxFlushGo_snd_nxt c.rdp_rx_queue.length c

theorem rx_queue_flush_snd_una (c) : (csp_rdp_rx_queue_flush c).snd_una = c.snd_una :=
  rxFlushGo_snd_una c.rdp_rx_queue.length c

theorem rx_queue_flush_snd_iss (c) : (csp_rdp_rx_queue_flush c).snd_iss = c.snd_iss :=
  rxFlushGo_snd_iss c.rdp_rx_queue.length c

theorem rx_queue_flush_rcv_irs (c) : (csp_rdp_rx_queue_flush c).rcv_irs = c.rcv_irs :=
  rxFlushGo_rcv_irs c.rdp_rx_queue.length c

theorem rx_queue_flush_tx_queue (c) : (csp_rdp_rx_queue_flush c).tx_queue = c.tx_queue :=
  rxFlushGo_tx_queue c.rdp_rx_queue.length c

theorem rx_queue_flush_sent (c) : (csp_rdp_rx_queue_flush c).sent = c.sent :=
  rxFlushGo_sent c.rdp_rx_queue.length c

theorem rx_queue_add_rdp_rx_queue (cfg c pkt s) :
    (csp_rdp_rx_queue_add cfg c pkt s).2 =
      (if (csp_rdp_rx_queue_add cfg c pkt s).1 then
        { c with rdp_rx_queue := c.rdp_rx_queue ++ [pkt] } else c) := by
  simp only [csp_rdp_rx_queue_add]
  split
  · rfl
  · split <;> rfl

/-! Concrete fixtures used by witnesses and counterexamples. -/

/-- The default build: delayed ACKs compiled in, CSP_RDP_MAX_WINDOW of 10. -/
def cfg0 : BuildCfg := { delayAcks := true, maxWindow := 10 }

/-- A plain OPEN connection just after a passive handshake, holding the
default negotiated options. -/
def connBase : RdpConn :=
  { state := RdpState.OPEN, snd_iss := 1000, snd_nxt := 1001, snd_una := 1001,
    rcv_cur := 2000, rcv_irs := 2000, rcv_lsa := 2000,
    window_size := 10, conn_timeout := 10000, packet_timeout := 1000,
    delayed_acks := 1, ack_timeout := 500, ack_delay_count := 5,
    ack_timestamp := 0, open_timestamp := 0, rx_socket := RxSocket.handed,
    tx_queue := [], rdp_rx_queue := [], app_rx_queue := [], sent := [] }

set_option maxRecDepth 4000 in
/-- The eackSweep loop is the filterMap dropping the entries whose seq_nr occurs
among the payload words and rewriting the timestamp of every entry some payload
word strictly exceeds. -/
theorem eackSweep_eq_filterMap (words : List Nat) (now pt : Nat) :
    ∀ q : List TxEntry, eackSweep words now pt q =
      q.filterMap (fun e =>
        if e.hdr.seq_nr ∈ words then none
        else if words.any (fun w => e.hdr.seq_nr < w) then some { e with timestamp := now - pt }
        else some e) := by
  intro q
  induction q with
  | nil => rfl
  | cons e es ih =>
    have hmem : (words.any (fun w => w = e.hdr.seq_nr) = true) ↔ e.hdr.seq_nr ∈ words := by
      simp only [List.any_eq_true, decide_eq_true_eq]
      constructor
      · rintro ⟨w, hw, rfl⟩; exact hw
      · intro h; exact ⟨_, h, rfl⟩
    by_cases hm : e.hdr.seq_nr ∈ words
    · have h1 : words.any (fun w => w = e.hdr.seq_nr) = true := hmem.mpr hm
      simp only [eackSweep, h1, if_true, List.filterMap_cons, hm, ih]
    · have h1 : words.any (fun w => w = e.hdr.seq_nr) = false := by
        cases h2 : words.any (fun w => w = e.hdr.seq_nr) with
        | false => rfl
        | true => exact absurd (hmem.mp h2) hm
      simp only [eackSweep, h1, List.filterMap_cons, hm, if_false, Bool.false_eq_true, ih]
      split <;> rfl

/-- C7: after csp_rdp_flush_eack processes an EACK whose payload lists the
sequence set S, the retransmission queue is exactly the original one with every
entry whose seq_nr is in S freed, every surviving entry whose seq_nr is strictly
below some member of S re-appended with its timestamp forced to now minus
packet_timeout, so the next timeout sweep, running at any strictly later time,
retransmits it, and every other entry re-appended unchanged; no surviving entry
carries a seq_nr of S, and no other connection field changes. -/
theorem eack_flush_clears_acked_and_ages_older (now : Nat) (c : RdpConn) (p : Packet) :
    (csp_rdp_flush_eack now c p).tx_queue =
      c.tx_queue.filterMap (fun e =>
        if e.hdr.seq_nr ∈ p.eackSeqs then none
        else if p.eackSeqs.any (fun w => e.hdr.seq_nr < w) then
          some { e with timestamp := now - c.packet_timeout }
        else some e) ∧
    (∀ e ∈ (csp_rdp_flush_eack now c p).tx_queue, e.hdr.seq_nr ∉ p.eackSeqs) ∧
    (∀ e ∈ (csp_rdp_flush_eack now c p).tx_queue,
        (∃ w ∈ p.eackSeqs, e.hdr.seq_nr < w) → e.timestamp = now - c.packet_timeout) ∧
    (csp_rdp_flush_eack now c p).state = c.state ∧
    (csp_rdp_flush_eack now c p).snd_una = c.snd_una ∧
    (csp_rdp_flush_eack now c p).snd_nxt = c.snd_nxt ∧
    (csp_rdp_flush_eack now c p).rcv_cur = c.rcv_cur ∧
    (csp_rdp_flush_eack now c p).rdp_rx_queue = c.rdp_rx_queue ∧
    (csp_rdp_flush_eack now c p).app_rx_queue = c.app_rx_queue ∧
    (csp_rdp_flush_eack now c p).sent = c.sent := by
  have hq : (csp_rdp_flush_eack now c p).tx_queue =
      c.tx_queue.filterMap (fun e =>
        if e.hdr.seq_nr ∈ p.eackSeqs then none
        else if p.eackSeqs.any (fun w => e.hdr.seq_nr < w) then
          some { e with timestamp := now - c.packet_timeout }
        else some e) := by
    simp only [csp_rdp_flush_eack]
    exact eackSweep_eq_filterMap p.eackSeqs now c.packet_timeout c.tx_queue
  refine ⟨hq, ?_, ?_, rfl, rfl, rfl, rfl, rfl, rfl, rfl⟩
  · intro e he
    rw [hq] at he
    rcases List.mem_filterMap.mp he with ⟨a, _, hfa⟩
    by_cases hm : a.hdr.seq_nr ∈ p.eackSeqs
    · simp [hm] at hfa
    · rw [if_neg hm] at hfa
      split at hfa <;> (cases hfa; exact hm)
  · intro e he hgt
    rw [hq] at he
    rcases List.mem_filterMap.mp he with ⟨a, _, hfa⟩
    by_cases hm : a.hdr.seq_nr ∈ p.eackSeqs
    · simp [hm] at hfa
    · rw [if_neg hm] at hfa
      split at hfa
      · cases hfa; rfl
      · cases hfa
        rename_i hfalse
        exfalso
        rcases hgt with ⟨w, hw, hlt⟩
        exact hfalse (by
          simp only [List.any_eq_true, decide_eq_true_eq]
          exact ⟨w, hw, hlt⟩)

/-- The timeout sweep is a filterMap over the original queue paired with the
list of retransmitted clones: acknowledged entries disappear, timed-out entries
are rewritten and cloned, fresh entries pass through. -/
theorem txSweep_eq (now una rcv pt : Nat) : ∀ q : List TxEntry,
    txSweep now una rcv pt q =
      (q.filterMap (fun e =>
          if e.hdr.seq_nr < una then none
          else if e.timestamp + pt < now then
            some { e with hdr := { e.hdr with ack_nr := rcv }, timestamp := now }
          else some e),
       q.filterMap (fun e =>
          if e.hdr.seq_nr < una then none
          else if e.timestamp + pt < now then
            some { Packet.blank with hdr := { e.hdr with ack_nr := rcv }, dataLen := e.dataLen }
          else none)) := by
  intro q
  induction q with
  | nil => rfl
  | cons e es ih =>
    simp only [txSweep, ih, List.filterMap_cons]
    split
    · rfl
    · split <;> rfl

/-- C6 (amended): the retransmission sweep of csp_rdp_check_timeouts visits each
tx_queue entry once; an entry with seq_nr below snd_una is freed; otherwise, when
the age now minus timestamp is STRICTLY greater than packet_timeout, its ack_nr
is rewritten to rcv_cur, its timestamp refreshed to now, a clone handed to the
datagram layer, and it is re-appended; otherwise it is re-appended unchanged. In
particular an entry whose age equals packet_timeout exactly is NOT retransmitted.
The hypotheses keep the tick out of its two closing branches and out of the
delayed-ACK catch-up send. -/
theorem tick_sweep_retransmits_strictly_late (cfg : BuildCfg) (now : Nat) (c : RdpConn)
    (h1 : ¬(c.rx_socket = RxSocket.socket ∧ c.open_timestamp + c.conn_timeout < now))
    (h2 : ¬(c.state = RdpState.CLOSE_WAIT ∧ c.open_timestamp + c.conn_timeout < now))
    (h3 : (cfg.delayAcks && decide (c.rcv_lsa < c.rcv_cur) &&
           decide (c.ack_timeout < now - c.ack_timestamp)) = false) :
    (csp_rdp_check_timeouts cfg now c).tx_queue =
      c.tx_queue.filterMap (fun e =>
        if e.hdr.seq_nr < c.snd_una then none
        else if c.packet_timeout < now - e.timestamp then
          some { e with hdr := { e.hdr with ack_nr := c.rcv_cur }, timestamp := now }
        else some e) ∧
    (csp_rdp_check_timeouts cfg now c).sent =
      c.sent ++ c.tx_queue.filterMap (fun e =>
        if e.hdr.seq_nr < c.snd_una then none
        else if c.packet_timeout < now - e.timestamp then
          some { Packet.blank with hdr := { e.hdr with ack_nr := c.rcv_cur }, dataLen := e.dataLen }
        else none) ∧
    (csp_rdp_check_timeouts cfg now c).state = c.state ∧
    (csp_rdp_check_timeouts cfg now c).snd_una = c.snd_una ∧
    (csp_rdp_check_timeouts cfg now c).snd_nxt = c.snd_nxt ∧
    (csp_rdp_check_timeouts cfg now c).rcv_cur = c.rcv_cur ∧
    (csp_rdp_check_timeouts cfg now c).rdp_rx_queue = c.rdp_rx_queue ∧
    (csp_rdp_check_timeouts cfg now c).app_rx_queue = c.app_rx_queue := by
  have hage : ∀ e : TxEntry,
      (e.timestamp + c.packet_timeout < now) ↔ (c.packet_timeout < now - e.timestamp) := by
    intro e; omega
  have hc : csp_rdp_check_timeouts cfg now c =
      { c with
        tx_queue := (txSweep now c.snd_una c.rcv_cur c.packet_timeout c.tx_queue).1,
        sent := c.sent ++ (txSweep now c.snd_una c.rcv_cur c.packet_timeout c.tx_queue).2 } := by
    rw [csp_rdp_check_timeouts, if_neg h1, if_neg h2]
    have hcond : ({ c with
        tx_queue := (txSweep now c.snd_una c.rcv_cur c.packet_timeout c.tx_queue).1,
        sent := c.sent ++ (txSweep now c.snd_una c.rcv_cur c.packet_timeout c.tx_queue).2 } : RdpConn).rcv_lsa = c.rcv_lsa := rfl
    simp only [h3, Bool.false_eq_true, if_false]
  have hq1 : ∀ e : TxEntry,
      (if e.hdr.seq_nr < c.snd_una then none
       else if e.timestamp + c.packet_timeout < now then
         some { e with hdr := { e.hdr with ack_nr := c.rcv_cur }, timestamp := now }
       else some e) =
      (if e.hdr.seq_nr < c.snd_una then none
       else if c.packet_timeout < now - e.timestamp then
         some { e with hdr := { e.hdr with ack_nr := c.rcv_cur }, timestamp := now }
       else some e) := by
    intro e
    exact if_congr Iff.rfl rfl (if_congr (hage e) rfl rfl)
  have hq2 : ∀ e : TxEntry,
      (if e.hdr.seq_nr < c.snd_una then none
       else if e.timestamp + c.packet_timeout < now then
         some { Packet.blank with hdr := { e.hdr with ack_nr := c.rcv_cur }, dataLen := e.dataLen }
       else none) =
      (if e.hdr.seq_nr < c.snd_una then none
       else if c.packet_timeout < now - e.timestamp then
         some { Packet.blank with hdr := { e.hdr with ack_nr := c.rcv_cur }, dataLen := e.dataLen }
       else none) := by
    intro e
    exact if_congr Iff.rfl rfl (if_congr (hage e) rfl rfl)
  rw [hc]
  refine ⟨?_, ?_, rfl, rfl, rfl, rfl, rfl, rfl⟩
  · show (txSweep now c.snd_una c.rcv_cur c.packet_timeout c.tx_queue).1 = _
    rw [txSweep_eq]
    exact List.filterMap_congr (fun e _ => hq1 e)
  · show c.sent ++ (txSweep now c.snd_una c.rcv_cur c.packet_timeout c.tx_queue).2 = _
    rw [txSweep_eq]
    exact congrArg (c.sent ++ ·) (List.filterMap_congr (fun e _ => hq2 e))

/-- An unacknowledged tx_queue entry whose age at time 1000 is exactly the
packet timeout of 1000 ms. -/
def txeC6 : TxEntry :=
  { timestamp := 0,
    hdr := { syn := false, ack := true, eak := false, rst := false, seq_nr := 1001, ack_nr := 2000 },
    dataLen := 5 }

/-- connBase holding txeC6 on its retransmission queue. -/
def connC6 : RdpConn := { connBase with tx_queue := [txeC6] }

/-- C6 counterexample: the claim says an entry whose age equals packet_timeout
exactly is retransmitted, but the code tests timestamp + packet_timeout < now
strictly, so at age exactly packet_timeout the unacknowledged entry is re-appended
unchanged and no clone reaches the datagram layer. -/
theorem tick_boundary_age_not_retransmitted :
    1000 - txeC6.timestamp = connC6.packet_timeout ∧
    ¬(txeC6.hdr.seq_nr < connC6.snd_una) ∧
    (csp_rdp_check_timeouts cfg0 1000 connC6).tx_queue = [txeC6] ∧
    (csp_rdp_check_timeouts cfg0 1000 connC6).sent = [] := by
  decide

/-- Witness instantiating tick_sweep_retransmits_strictly_late on connC6. -/
theorem tick_sweep_retransmits_strictly_late_witness :
    (csp_rdp_check_timeouts cfg0 1000 connC6).tx_queue =
      connC6.tx_queue.filterMap (fun e =>
        if e.hdr.seq_nr < connC6.snd_una then none
        else if connC6.packet_timeout < 1000 - e.timestamp then
          some { e with hdr := { e.hdr with ack_nr := connC6.rcv_cur }, timestamp := 1000 }
        else some e) :=
  (tick_sweep_retransmits_strictly_late cfg0 1000 connC6 (by decide) (by decide) (by decide)).1

/-- C9 (amended): csp_rdp_send failures that occur before the RDP header is
attached, that is a lock failure, a non-OPEN connection, or a window-full wait
that times out, leave the connection completely unchanged; the two failure paths
after the header is attached, clone allocation failure and a full retransmission
queue, return failure with snd_nxt already incremented by one, so a sequence
number has been consumed, while every other field is unchanged. -/
theorem send_failure_paths (cfg : BuildCfg) (now : Nat) (c : RdpConn) (dataLen : Nat)
    (lockOk wake allocOk : Bool) :
    (lockOk = false → csp_rdp_send cfg now c dataLen lockOk wake allocOk = (false, c)) ∧
    (c.state ≠ RdpState.OPEN → csp_rdp_send cfg now c dataLen lockOk wake allocOk = (false, c)) ∧
    (c.window_size ≤ c.snd_nxt - c.snd_una + 1 → wake = false →
       csp_rdp_send cfg now c dataLen lockOk wake allocOk = (false, c)) ∧
    (lockOk = true → c.state = RdpState.OPEN →
     (c.snd_nxt - c.snd_una + 1 < c.window_size ∨ wake = true) →
     (csp_rdp_send cfg now c dataLen lockOk wake allocOk).1 = false →
       (csp_rdp_send cfg now c dataLen lockOk wake allocOk).2 =
         { c with snd_nxt := c.snd_nxt + 1 }) := by
  refine ⟨?_, ?_, ?_, ?_⟩
  · intro h
    simp [csp_rdp_send, h]
  · intro h
    by_cases hl : lockOk
    · simp [csp_rdp_send, hl, h]
    · simp [csp_rdp_send, hl]
  · intro hwin hwake
    by_cases hl : lockOk
    · by_cases hs : c.state = RdpState.OPEN
      · simp [csp_rdp_send, hl, hs, hwake, hwin]
      · simp [csp_rdp_send, hl, hs]
    · simp [csp_rdp_send, hl]
  · intro hl hs hor hfail
    have hcond : (decide (c.window_size ≤ c.snd_nxt - c.snd_una + 1) && !wake) = false := by
      rcases hor with h | h
      · simp [Nat.not_le.mpr h]
      · simp [h]
    rw [csp_rdp_send] at hfail ⊢
    simp only [hl, hs, hcond, Bool.not_true, Bool.false_eq_true, if_false,
      ne_eq, not_true_eq_false, if_neg] at hfail ⊢
    by_cases ha : allocOk
    · simp only [ha, Bool.not_true, Bool.false_eq_true, if_false] at hfail ⊢
      by_cases hq : cfg.maxWindow ≤ c.tx_queue.length
      · simp [hq]
      · simp [hq] at hfail
    · simp [ha]

/-- C9 counterexample: the claim says every csp_rdp_send failure leaves snd_nxt
unchanged, but when the clone allocation fails the function has already attached
the header and incremented snd_nxt, so it returns failure with
snd_nxt = old snd_nxt + 1 on an OPEN connection. -/
theorem send_alloc_failure_bumps_snd_nxt :
    connBase.state = RdpState.OPEN ∧
    (csp_rdp_send cfg0 0 connBase 5 true true false).1 = false ∧
    (csp_rdp_send cfg0 0 connBase 5 true true false).2.snd_nxt = connBase.snd_nxt + 1 := by
  decide

/-- Witness instantiating send_failure_paths: the allocation-failure branch on
connBase, discharging every hypothesis at the concrete input. -/
theorem send_failure_paths_witness :
    (csp_rdp_send cfg0 0 connBase 5 true true false).2 =
      { connBase with snd_nxt := connBase.snd_nxt + 1 } :=
  (send_failure_paths cfg0 0 connBase 5 true true false).2.2.2 rfl rfl
    (Or.inl (by decide)) (by decide)

/-- C10: in CLOSE_WAIT, an inbound non-RST packet whose ack_nr satisfies
snd_una - 1 - 2 times window_size ≤ ack_nr < snd_nxt makes the connection set
snd_una to ack_nr + 1 and reply with a RST plus ACK carrying seq_nr = snd_nxt and
ack_nr = rcv_cur, the state staying CLOSE_WAIT; an out-of-range ack_nr is
discarded with no reply and no state change at all. The hypothesis
2 times window_size + 1 ≤ snd_una keeps the unsigned lower-bound subtraction
away from underflow, which the specification leaves out of scope. -/
theorem close_wait_ack_response (cfg : BuildCfg) (now : Nat) (c : RdpConn) (p : Packet)
    (hs : c.state = RdpState.CLOSE_WAIT)
    (hrst : p.hdr.rst = false)
    (hw : 2 * c.window_size + 1 ≤ c.snd_una) :
    ((c.snd_una - 1 - 2 * c.window_size ≤ p.hdr.ack_nr ∧ p.hdr.ack_nr < c.snd_nxt) →
      (csp_rdp_new_packet cfg now c p).snd_una = p.hdr.ack_nr + 1 ∧
      (csp_rdp_new_packet cfg now c p).state = RdpState.CLOSE_WAIT ∧
      (csp_rdp_new_packet cfg now c p).sent = c.sent ++
        [{ Packet.blank with hdr := { syn := false, ack := true, eak := false, rst := true,
                                      seq_nr := c.snd_nxt, ack_nr := c.rcv_cur } }] ∧
      (csp_rdp_new_packet cfg now c p).snd_nxt = c.snd_nxt ∧
      (csp_rdp_new_packet cfg now c p).rcv_cur = c.rcv_cur ∧
      (csp_rdp_new_packet cfg now c p).tx_queue = c.tx_queue ∧
      (csp_rdp_new_packet cfg now c p).rdp_rx_queue = c.rdp_rx_queue ∧
      (csp_rdp_new_packet cfg now c p).app_rx_queue = c.app_rx_queue) ∧
    (¬(c.snd_una - 1 - 2 * c.window_size ≤ p.hdr.ack_nr ∧ p.hdr.ack_nr < c.snd_nxt) →
      csp_rdp_new_packet cfg now c p = c) := by
  have hpro : rdpPromote c = c := by
    rw [rdpPromote, if_neg]
    rw [hs]
    intro h
    cases h
  have hnp : csp_rdp_new_packet cfg now c p = rdpCloseWait cfg now c p := by
    rw [csp_rdp_new_packet]
    rw [hpro, hrst]
    simp only [Bool.false_eq_true, if_false, hs]
  constructor
  · rintro ⟨hlo, hhi⟩
    rw [hnp, rdpCloseWait, if_neg (by omega), if_neg (by omega)]
    refine ⟨?_, ?_, ?_, ?_, ?_, ?_, ?_, ?_⟩
    · rw [send_cmp_snd_una]
    · rw [send_cmp_state, hs]
    · rw [send_cmp_sent]
      rfl
    · rw [send_cmp_snd_nxt]
    · rw [send_cmp_rcv_cur]
    · rw [send_cmp_tx_queue_nocopy]
    · rw [send_cmp_rdp_rx_queue]
    · rw [send_cmp_app_rx_queue]
  · intro hout
    rw [hnp, rdpCloseWait]
    by_cases h1 : c.snd_nxt ≤ p.hdr.ack_nr
    · rw [if_pos h1]
    · rw [if_neg h1, if_pos (by omega)]

/-- connBase moved to CLOSE_WAIT, as after a user close. -/
def connC10 : RdpConn := { connBase with state := RdpState.CLOSE_WAIT }

/-- A bare in-range ACK segment for the CLOSE_WAIT witness. -/
def pktC10 : Packet :=
  { Packet.blank with hdr := { syn := false, ack := true, eak := false, rst := false,
                               seq_nr := 2001, ack_nr := 1000 } }

/-- Witness instantiating close_wait_ack_response on an in-range ACK. -/
theorem close_wait_ack_response_witness :
    (csp_rdp_new_packet cfg0 0 connC10 pktC10).snd_una = pktC10.hdr.ack_nr + 1 ∧
    (csp_rdp_new_packet cfg0 0 connC10 pktC10).state = RdpState.CLOSE_WAIT :=
  ⟨((close_wait_ack_response cfg0 0 connC10 pktC10 rfl rfl (by decide)).1 (by decide)).1,
   ((close_wait_ack_response cfg0 0 connC10 pktC10 rfl rfl (by decide)).1 (by decide)).2.1⟩

theorem rx_queue_add_state (cfg c pkt s) : (csp_rdp_rx_queue_add cfg c pkt s).2.state = c.state := by
  simp only [csp_rdp_rx_queue_add]
  split
  · rfl
  · split <;> rfl

theorem rx_queue_add_snd_una (cfg c pkt s) :
    (csp_rdp_rx_queue_add cfg c pkt s).2.snd_una = c.snd_una := by
  simp only [csp_rdp_rx_queue_add]
  split
  · rfl
  · split <;> rfl

theorem rx_queue_add_snd_nxt (cfg c pkt s) :
    (csp_rdp_rx_queue_add cfg c pkt s).2.snd_nxt = c.snd_nxt := by
  simp only [csp_rdp_rx_queue_add]
  split
  · rfl
  · split <;> rfl

theorem rx_queue_add_rcv_cur (cfg c pkt s) :
    (csp_rdp_rx_queue_add cfg c pkt s).2.rcv_cur = c.rcv_cur := by
  simp only [csp_rdp_rx_queue_add]
  split
  · rfl
  · split <;> rfl

theorem rx_queue_add_sent (cfg c pkt s) : (csp_rdp_rx_queue_add cfg c pkt s).2.sent = c.sent := by
  simp only [csp_rdp_rx_queue_add]
  split
  · rfl
  · split <;> rfl

theorem rx_queue_add_app_rx_queue (cfg c pkt s) :
    (csp_rdp_rx_queue_add cfg c pkt s).2.app_rx_queue = c.app_rx_queue := by
  simp only [csp_rdp_rx_queue_add]
  split
  · rfl
  · split <;> rfl

theorem rx_queue_add_tx_queue (cfg c pkt s) :
    (csp_rdp_rx_queue_add cfg c pkt s).2.tx_queue = c.tx_queue := by
  simp only [csp_rdp_rx_queue_add]
  split
  · rfl
  · split <;> rfl

/-- In SYN_RCVD or OPEN, a non-RST packet is handled entirely by the shared
SYN_RCVD and OPEN branch. -/
theorem new_packet_open_states (cfg now c p)
    (hs : c.state = RdpState.SYN_RCVD ∨ c.state = RdpState.OPEN)
    (hrst : p.hdr.rst = false) :
    csp_rdp_new_packet cfg now c p = rdpOpenStates cfg now c p := by
  have hpro : rdpPromote c = c := by
    rw [rdpPromote, if_neg]
    rcases hs with h | h <;> (rw [h]; intro hh; cases hh)
  rw [csp_rdp_new_packet, hpro, hrst]
  rcases hs with h | h <;> simp only [Bool.false_eq_true, if_false, h]


theorem seq_reject_state (cfg now c) : (rdpSeqReject cfg now c).state = c.state := by
  simp only [rdpSeqReject]
  split <;> split <;> simp only [send_eack_state, send_cmp_state]

theorem seq_reject_snd_una (cfg now c) : (rdpSeqReject cfg now c).snd_una = c.snd_una := by
  simp only [rdpSeqReject]
  split <;> split <;> simp only [send_eack_snd_una, send_cmp_snd_una]

theorem seq_reject_snd_nxt (cfg now c) : (rdpSeqReject cfg now c).snd_nxt = c.snd_nxt := by
  simp only [rdpSeqReject]
  split <;> split <;> simp only [send_eack_snd_nxt, send_cmp_snd_nxt]

theorem seq_reject_rcv_cur (cfg now c) : (rdpSeqReject cfg now c).rcv_cur = c.rcv_cur := by
  simp only [rdpSeqReject]
  split <;> split <;> simp only [send_eack_rcv_cur, send_cmp_rcv_cur]

theorem seq_reject_rdp_rx_queue (cfg now c) :
    (rdpSeqReject cfg now c).rdp_rx_queue = c.rdp_rx_queue := by
  simp only [rdpSeqReject]
  split <;> split <;> simp only [send_eack_rdp_rx_queue, send_cmp_rdp_rx_queue]

theorem seq_reject_app_rx_queue (cfg now c) :
    (rdpSeqReject cfg now c).app_rx_queue = c.app_rx_queue := by
  simp only [rdpSeqReject]
  split <;> split <;> simp only [send_eack_app_rx_queue, send_cmp_app_rx_queue]

theorem seq_reject_sent_syn_rcvd (cfg now c) (h : c.state = RdpState.SYN_RCVD) :
    (rdpSeqReject cfg now c).sent = c.sent ++
      [{ Packet.blank with hdr := { syn := true, ack := true, eak := false, rst := false,
                                    seq_nr := c.snd_iss, ack_nr := c.rcv_irs } }] := by
  simp only [rdpSeqReject, if_pos h]
  rw [if_neg, send_cmp_sent]
  · rfl
  · rw [send_cmp_state, h]
    intro hh
    cases hh

theorem seq_reject_sent_open (cfg now c) (h : c.state = RdpState.OPEN) :
    (rdpSeqReject cfg now c).sent = c.sent ++
      [{ Packet.blank with
          hdr := { syn := false, ack := true, eak := true, rst := false,
                   seq_nr := c.snd_nxt, ack_nr := c.rcv_cur },
          dataLen := 2 * (c.rdp_rx_queue.map (fun q => q.hdr.seq_nr)).length,
          eackSeqs := c.rdp_rx_queue.map (fun q => q.hdr.seq_nr) }] := by
  have hne : ¬ c.state = RdpState.SYN_RCVD := by
    rw [h]
    intro hh
    cases hh
  simp only [rdpSeqReject, if_neg hne, if_pos h, send_eack_sent]

theorem data_phase_snd_una (cfg now c p) : (rdpDataPhase cfg now c p).snd_una = c.snd_una := by
  rw [rdpDataPhase]
  split
  · split
    · rw [flush_eack_only_tx]
    · rfl
  · split
    · rfl
    · split
      · split
        · rename_i c3 heq
          have h := rx_queue_add_snd_una cfg c p p.hdr.seq_nr
          rw [heq] at h
          exact h
        · rename_i c3 heq
          have h := rx_queue_add_snd_una cfg c p p.hdr.seq_nr
          rw [heq] at h
          rw [send_eack_snd_una, h]
      · rw [rx_queue_flush_snd_una]
        split <;> (try split) <;> simp only [send_cmp_snd_una, receive_data_snd_una]

theorem data_phase_snd_nxt (cfg now c p) : (rdpDataPhase cfg now c p).snd_nxt = c.snd_nxt := by
  rw [rdpDataPhase]
  split
  · split
    · rw [flush_eack_only_tx]
    · rfl
  · split
    · rfl
    · split
      · split
        · rename_i c3 heq
          have h := rx_queue_add_snd_nxt cfg c p p.hdr.seq_nr
          rw [heq] at h
          exact h
        · rename_i c3 heq
          have h := rx_queue_add_snd_nxt cfg c p p.hdr.seq_nr
          rw [heq] at h
          rw [send_eack_snd_nxt, h]
      · rw [rx_queue_flush_snd_nxt]
        split <;> (try split) <;> simp only [send_cmp_snd_nxt, receive_data_snd_nxt]

theorem data_phase_state (cfg now c p) : (rdpDataPhase cfg now c p).state = c.state := by
  rw [rdpDataPhase]
  split
  · split
    · rw [flush_eack_only_tx]
    · rfl
  · split
    · rfl
    · split
      · split
        · rename_i c3 heq
          have h := rx_queue_add_state cfg c p p.hdr.seq_nr
          rw [heq] at h
          exact h
        · rename_i c3 heq
          have h := rx_queue_add_state cfg c p p.hdr.seq_nr
          rw [heq] at h
          rw [send_eack_state, h]
      · rw [rx_queue_flush_state]
        split <;> (try split) <;> simp only [send_cmp_state, receive_data_state]

/-- No branch of the SYN_RCVD and OPEN handler modifies snd_nxt. -/
theorem rdpOpenStates_snd_nxt (cfg now c p) : (rdpOpenStates cfg now c p).snd_nxt = c.snd_nxt := by
  rw [rdpOpenStates]
  split
  · exact discard_close_snd_nxt c
  · split
    · exact seq_reject_snd_nxt cfg now c
    · split
      · exact discard_close_snd_nxt c
      · split
        · exact discard_close_snd_nxt c
        · split
          · exact discard_close_snd_nxt c
          · rw [data_phase_snd_nxt]
            split <;> rfl

/-- In the SYN_RCVD and OPEN handler, snd_una is either untouched or set to
ack_nr + 1 after both ACK boundary checks passed. -/
theorem rdpOpenStates_snd_una_cases (cfg now c p) :
    (rdpOpenStates cfg now c p).snd_una = c.snd_una ∨
    ((rdpOpenStates cfg now c p).snd_una = p.hdr.ack_nr + 1 ∧
     p.hdr.ack_nr < c.snd_nxt ∧
     ¬(p.hdr.ack_nr < c.snd_una - 1 - c.window_size * 2)) := by
  rw [rdpOpenStates]
  split
  · exact Or.inl (discard_close_snd_una c)
  · split
    · exact Or.inl (seq_reject_snd_una cfg now c)
    · split
      · exact Or.inl (discard_close_snd_una c)
      · split
        · exact Or.inl (discard_close_snd_una c)
        · split
          · exact Or.inl (discard_close_snd_una c)
          · rename_i hhi hlo hsr
            refine Or.inr ⟨?_, by omega, hlo⟩
            rw [data_phase_snd_una]

/-- A stale but still in-window ACK: ack_nr far below what has already been
acknowledged, on a connection whose whole window has been acknowledged. -/
def pktOldAck : Packet :=
  { Packet.blank with hdr := { syn := false, ack := true, eak := false, rst := false,
                               seq_nr := 2001, ack_nr := 1000 } }

/-- connBase after twenty segments were sent and acknowledged. -/
def connC3 : RdpConn := { connBase with snd_una := 1021, snd_nxt := 1021 }

/-- C3 counterexample: the window invariant holds before the packet, the
connection is and stays OPEN, yet after csp_rdp_new_packet accepts an in-window
ACK carrying the old ack_nr 1000 the distance snd_nxt - snd_una is 20, twice the
negotiated window of 10. -/
theorem open_window_invariant_violated :
    connC3.state = RdpState.OPEN ∧
    connC3.snd_una ≤ connC3.snd_nxt ∧
    connC3.snd_nxt - connC3.snd_una ≤ connC3.window_size ∧
    (csp_rdp_new_packet cfg0 0 connC3 pktOldAck).state = RdpState.OPEN ∧
    connC3.window_size <
      (csp_rdp_new_packet cfg0 0 connC3 pktOldAck).snd_nxt -
        (csp_rdp_new_packet cfg0 0 connC3 pktOldAck).snd_una := by
  decide

/-- C3 (amended): while OPEN, csp_rdp_check_timeouts never changes snd_una or
snd_nxt, and csp_rdp_send and csp_rdp_new_packet on a non-RST packet preserve
snd_una ≤ snd_nxt; the second half of the claimed invariant,
snd_nxt - snd_una ≤ window_size, is not maintained, because accepting an
in-window ACK with an old ack_nr moves snd_una backwards. -/
theorem open_ops_preserve_snd_una_le_snd_nxt (cfg : BuildCfg) (now : Nat) (c : RdpConn)
    (p : Packet) (dataLen : Nat) (lockOk wake allocOk : Bool)
    (hinv : c.snd_una ≤ c.snd_nxt) :
    (c.state = RdpState.OPEN → p.hdr.rst = false →
      (csp_rdp_new_packet cfg now c p).snd_una ≤ (csp_rdp_new_packet cfg now c p).snd_nxt) ∧
    ((csp_rdp_check_timeouts cfg now c).snd_una = c.snd_una ∧
     (csp_rdp_check_timeouts cfg now c).snd_nxt = c.snd_nxt) ∧
    (csp_rdp_send cfg now c dataLen lockOk wake allocOk).2.snd_una ≤
      (csp_rdp_send cfg now c dataLen lockOk wake allocOk).2.snd_nxt := by
  refine ⟨?_, ⟨?_, ?_⟩, ?_⟩
  · intro hs hrst
    rw [new_packet_open_states cfg now c p (Or.inr hs) hrst]
    rcases rdpOpenStates_snd_una_cases cfg now c p with h | ⟨h, hlt, _⟩ <;>
      rw [h, rdpOpenStates_snd_nxt] <;> omega
  · simp only [csp_rdp_check_timeouts]
    split
    · rfl
    · split
      · rfl
      · split
        · rw [send_cmp_snd_una]
        · rfl
  · simp only [csp_rdp_check_timeouts]
    split
    · rfl
    · split
      · rfl
      · split
        · rw [send_cmp_snd_nxt]
        · rfl
  · simp only [csp_rdp_send]
    split
    · exact hinv
    · split
      · exact hinv
      · split
        · exact hinv
        · split
          · show c.snd_una ≤ c.snd_nxt + 1
            omega
          · split
            · show c.snd_una ≤ c.snd_nxt + 1
              omega
            · show c.snd_una ≤ c.snd_nxt + 1
              omega

/-- Witness instantiating open_ops_preserve_snd_una_le_snd_nxt on connBase and a
bare in-window ACK. -/
theorem open_ops_preserve_snd_una_le_snd_nxt_witness :
    (csp_rdp_new_packet cfg0 0 connBase pktOldAck).snd_una ≤
      (csp_rdp_new_packet cfg0 0 connBase pktOldAck).snd_nxt :=
  (open_ops_preserve_snd_una_le_snd_nxt cfg0 0 connBase pktOldAck 5 true true true
    (by decide)).1 rfl rfl

/-- connBase with one segment in flight and four already acknowledged beyond it. -/
def connC4 : RdpConn := { connBase with snd_una := 1005, snd_nxt := 1006 }

/-- C4 counterexample: the claim says snd_una is non-decreasing across inbound
packets, but csp_rdp_new_packet accepting the in-window ACK with the old ack_nr
1000 rewrites snd_una from 1005 down to 1001. -/
theorem snd_una_decreases_on_old_ack :
    (csp_rdp_new_packet cfg0 0 connC4 pktOldAck).snd_una < connC4.snd_una ∧
    (csp_rdp_new_packet cfg0 0 connC4 pktOldAck).snd_una = 1001 := by
  decide

/-- C4 (amended): snd_una is NOT monotone. For a non-RST packet in SYN_RCVD or
OPEN it is either left alone or set to ack_nr + 1 for an ack_nr that passed the
lower window boundary, so it can decrease, but by at most 2 times window_size; an
RST carrying the ack flag sets snd_una to ack_nr + 1 with no bound at all. The
underflow-guard hypothesis matches the specification's exclusion of wrap. -/
theorem snd_una_bounded_decrease (cfg : BuildCfg) (now : Nat) (c : RdpConn) (p : Packet)
    (hs : c.state = RdpState.SYN_RCVD ∨ c.state = RdpState.OPEN)
    (hrst : p.hdr.rst = false)
    (hw : 2 * c.window_size + 1 ≤ c.snd_una) :
    c.snd_una ≤ (csp_rdp_new_packet cfg now c p).snd_una + 2 * c.window_size := by
  rw [new_packet_open_states cfg now c p hs hrst]
  rcases rdpOpenStates_snd_una_cases cfg now c p with h | ⟨h, _, hlow⟩ <;> rw [h] <;> omega

/-- Witness instantiating snd_una_bounded_decrease on connC4 and the old ACK. -/
theorem snd_una_bounded_decrease_witness :
    connC4.snd_una ≤ (csp_rdp_new_packet cfg0 0 connC4 pktOldAck).snd_una +
      2 * connC4.window_size :=
  snd_una_bounded_decrease cfg0 0 connC4 pktOldAck (Or.inr rfl) rfl (by decide)

/-- C1: in SYN_RCVD and OPEN, the sequence number of an inbound non-RST segment,
one with syn clear and ack set as every data or ACK packet has, is accepted iff
rcv_cur < seq_nr ≤ rcv_cur + 2 times window_size. On rejection, which covers
seq_nr = rcv_cur and seq_nr = rcv_cur + 2 times window_size + 1, the connection
retransmits the SYN plus ACK if in SYN_RCVD and emits an EACK if in OPEN, and the
packet is discarded with the state field, send and receive sequence variables,
reassembly queue and application queue unchanged. On acceptance, which covers
seq_nr = rcv_cur + 2 times window_size, processing continues: with an in-range
ack_nr on an OPEN connection the snd_una update to ack_nr + 1 takes place. -/
theorem seq_window_acceptance (cfg : BuildCfg) (now : Nat) (c : RdpConn) (p : Packet)
    (hs : c.state = RdpState.SYN_RCVD ∨ c.state = RdpState.OPEN)
    (hrst : p.hdr.rst = false) (hsyn : p.hdr.syn = false) (hack : p.hdr.ack = true) :
    (¬(c.rcv_cur < p.hdr.seq_nr ∧ p.hdr.seq_nr ≤ c.rcv_cur + 2 * c.window_size) →
      (csp_rdp_new_packet cfg now c p).state = c.state ∧
      (csp_rdp_new_packet cfg now c p).snd_una = c.snd_una ∧
      (csp_rdp_new_packet cfg now c p).snd_nxt = c.snd_nxt ∧
      (csp_rdp_new_packet cfg now c p).rcv_cur = c.rcv_cur ∧
      (csp_rdp_new_packet cfg now c p).rdp_rx_queue = c.rdp_rx_queue ∧
      (csp_rdp_new_packet cfg now c p).app_rx_queue = c.app_rx_queue ∧
      (c.state = RdpState.SYN_RCVD →
        (csp_rdp_new_packet cfg now c p).sent = c.sent ++
          [{ Packet.blank with hdr := { syn := true, ack := true, eak := false, rst := false,
                                        seq_nr := c.snd_iss, ack_nr := c.rcv_irs } }]) ∧
      (c.state = RdpState.OPEN →
        (csp_rdp_new_packet cfg now c p).sent = c.sent ++
          [{ Packet.blank with
              hdr := { syn := false, ack := true, eak := true, rst := false,
                       seq_nr := c.snd_nxt, ack_nr := c.rcv_cur },
              dataLen := 2 * (c.rdp_rx_queue.map (fun q => q.hdr.seq_nr)).length,
              eackSeqs := c.rdp_rx_queue.map (fun q => q.hdr.seq_nr) }])) ∧
    ((c.rcv_cur < p.hdr.seq_nr ∧ p.hdr.seq_nr ≤ c.rcv_cur + 2 * c.window_size) →
      c.state = RdpState.OPEN →
      c.snd_una - 1 - 2 * c.window_size ≤ p.hdr.ack_nr → p.hdr.ack_nr < c.snd_nxt →
      (csp_rdp_new_packet cfg now c p).snd_una = p.hdr.ack_nr + 1) := by
  have hnp := new_packet_open_states cfg now c p hs hrst
  have hflag : (p.hdr.syn || !p.hdr.ack) = false := by
    rw [hsyn, hack]
    rfl
  constructor
  · intro hrej
    have hseqc : (decide (p.hdr.seq_nr ≤ c.rcv_cur) ||
        decide (c.rcv_cur + c.window_size * 2 < p.hdr.seq_nr)) = true := by
      simp only [Bool.or_eq_true, decide_eq_true_eq]
      omega
    have hres : csp_rdp_new_packet cfg now c p = rdpSeqReject cfg now c := by
      rw [hnp, rdpOpenStates, hflag]
      simp only [Bool.false_eq_true, if_false]
      rw [if_pos hseqc]
    rw [hres]
    exact ⟨seq_reject_state cfg now c, seq_reject_snd_una cfg now c,
      seq_reject_snd_nxt cfg now c, seq_reject_rcv_cur cfg now c,
      seq_reject_rdp_rx_queue cfg now c, seq_reject_app_rx_queue cfg now c,
      fun h => seq_reject_sent_syn_rcvd cfg now c h,
      fun h => seq_reject_sent_open cfg now c h⟩
  · intro hacc hsO hlo hhi
    have hseqc : (decide (p.hdr.seq_nr ≤ c.rcv_cur) ||
        decide (c.rcv_cur + c.window_size * 2 < p.hdr.seq_nr)) = false := by
      simp only [Bool.or_eq_false_iff, decide_eq_false_iff_not]
      omega
    rw [hnp, rdpOpenStates, hflag]
    simp only [Bool.false_eq_true, if_false, hseqc]
    rw [if_neg (by omega : ¬ c.snd_nxt ≤ p.hdr.ack_nr)]
    rw [if_neg (by omega : ¬ p.hdr.ack_nr < c.snd_una - 1 - c.window_size * 2)]
    rw [if_neg (by
      rw [hsO]
      rintro ⟨hh, _⟩
      cases hh)]
    simp only [data_phase_snd_una]

/-- Witness instantiating seq_window_acceptance: connBase with rcv_cur 2000 and
window 10 rejects seq_nr 2000 while emitting an EACK, and accepts seq_nr 2020
updating snd_una from the packet's in-range ack_nr. -/
theorem seq_window_acceptance_witness :
    ((csp_rdp_new_packet cfg0 0 connBase
        { Packet.blank with hdr := { syn := false, ack := true, eak := false, rst := false,
                                     seq_nr := 2000, ack_nr := 1000 } }).state = connBase.state) ∧
    ((csp_rdp_new_packet cfg0 0 connBase
        { Packet.blank with hdr := { syn := false, ack := true, eak := false, rst := false,
                                     seq_nr := 2020, ack_nr := 1000 } }).snd_una = 1001) :=
  ⟨((seq_window_acceptance cfg0 0 connBase
      { Packet.blank with hdr := { syn := false, ack := true, eak := false, rst := false,
                                   seq_nr := 2000, ack_nr := 1000 } }
      (Or.inr rfl) rfl rfl rfl).1 (by decide)).1,
   (seq_window_acceptance cfg0 0 connBase
      { Packet.blank with hdr := { syn := false, ack := true, eak := false, rst := false,
                                   seq_nr := 2020, ack_nr := 1000 } }
      (Or.inr rfl) rfl rfl rfl).2 (by decide) rfl (by decide) (by decide)⟩

/-- An in-window segment whose ack_nr equals snd_nxt, one past the highest
acceptable acknowledgement. -/
def pktC2 : Packet :=
  { Packet.blank with hdr := { syn := false, ack := true, eak := false, rst := false,
                               seq_nr := 2001, ack_nr := 1001 } }

/-- C2 counterexample: the claim says an out-of-range ack_nr resets and closes
the connection, leaving the data-transfer states, but after csp_rdp_new_packet
processes the too-high acknowledgement the state field is still OPEN: the code
only signals userspace and keeps the state. -/
theorem out_of_range_ack_keeps_state_open :
    connBase.snd_nxt ≤ pktC2.hdr.ack_nr ∧
    (csp_rdp_new_packet cfg0 0 connBase pktC2).state = RdpState.OPEN := by
  decide

/-- C2 (amended): in SYN_RCVD and OPEN, an inbound non-RST segment whose ack_nr
falls outside snd_una - 1 - 2 times window_size ≤ ack_nr < snd_nxt is discarded
and, when userspace already holds the connection handle, a NULL sentinel is
pushed onto the application receive queue asking the user to close; the state
field, both send sequence variables, rcv_cur, the retransmission queue and the
send log are unchanged, so the connection leaves SYN_RCVD or OPEN only when the
user reacts to the sentinel, not in csp_rdp_new_packet itself. -/
theorem ack_out_of_range_signals_close (cfg : BuildCfg) (now : Nat) (c : RdpConn) (p : Packet)
    (hs : c.state = RdpState.SYN_RCVD ∨ c.state = RdpState.OPEN)
    (hrst : p.hdr.rst = false) (hsyn : p.hdr.syn = false) (hack : p.hdr.ack = true)
    (hseq : c.rcv_cur < p.hdr.seq_nr ∧ p.hdr.seq_nr ≤ c.rcv_cur + 2 * c.window_size)
    (hout : c.snd_nxt ≤ p.hdr.ack_nr ∨ p.hdr.ack_nr < c.snd_una - 1 - 2 * c.window_size) :
    csp_rdp_new_packet cfg now c p = rdpDiscardClose c ∧
    (csp_rdp_new_packet cfg now c p).state = c.state ∧
    (csp_rdp_new_packet cfg now c p).snd_una = c.snd_una ∧
    (csp_rdp_new_packet cfg now c p).snd_nxt = c.snd_nxt ∧
    (csp_rdp_new_packet cfg now c p).rcv_cur = c.rcv_cur ∧
    (csp_rdp_new_packet cfg now c p).sent = c.sent ∧
    (csp_rdp_new_packet cfg now c p).tx_queue = c.tx_queue ∧
    (csp_rdp_new_packet cfg now c p).app_rx_queue =
      c.app_rx_queue ++ (if c.rx_socket = RxSocket.handed then [none] else []) := by
  have hnp := new_packet_open_states cfg now c p hs hrst
  have hflag : (p.hdr.syn || !p.hdr.ack) = false := by
    rw [hsyn, hack]
    rfl
  have hseqc : (decide (p.hdr.seq_nr ≤ c.rcv_cur) ||
      decide (c.rcv_cur + c.window_size * 2 < p.hdr.seq_nr)) = false := by
    simp only [Bool.or_eq_false_iff, decide_eq_false_iff_not]
    omega
  have hres : csp_rdp_new_packet cfg now c p = rdpDiscardClose c := by
    rw [hnp, rdpOpenStates, hflag]
    simp only [Bool.false_eq_true, if_false, hseqc]
    by_cases hh : c.snd_nxt ≤ p.hdr.ack_nr
    · rw [if_pos hh]
    · rw [if_neg hh]
      rcases hout with h | h
      · exact absurd h hh
      · rw [if_pos (by omega : p.hdr.ack_nr < c.snd_una - 1 - c.window_size * 2)]
  rw [hres]
  exact ⟨rfl, discard_close_state c, discard_close_snd_una c, discard_close_snd_nxt c,
    discard_close_rcv_cur c, discard_close_sent c, discard_close_tx_queue c,
    discard_close_app_rx_queue c⟩

/-- Witness instantiating ack_out_of_range_signals_close on connBase and the
too-high acknowledgement pktC2. -/
theorem ack_out_of_range_signals_close_witness :
    (csp_rdp_new_packet cfg0 0 connBase pktC2).state = connBase.state ∧
    (csp_rdp_new_packet cfg0 0 connBase pktC2).app_rx_queue =
      connBase.app_rx_queue ++
        (if connBase.rx_socket = RxSocket.handed then [none] else []) :=
  ⟨(ack_out_of_range_signals_close cfg0 0 connBase pktC2 (Or.inr rfl) rfl rfl rfl
      (by decide) (Or.inl (by decide))).2.1,
   (ack_out_of_range_signals_close cfg0 0 connBase pktC2 (Or.inr rfl) rfl rfl rfl
      (by decide) (Or.inl (by decide))).2.2.2.2.2.2.2⟩

theorem promote_sent (c) : (rdpPromote c).sent = c.sent := by
  rw [rdpPromote]
  split <;> rfl

theorem promote_tx_queue (c) : (rdpPromote c).tx_queue = c.tx_queue := by
  rw [rdpPromote]
  split <;> rfl

theorem promote_app_rx_queue (c) : (rdpPromote c).app_rx_queue = c.app_rx_queue := by
  rw [rdpPromote]
  split <;> rfl

theorem promote_rcv_cur (c) : (rdpPromote c).rcv_cur = c.rcv_cur := by
  rw [rdpPromote]
  split <;> rfl

/-- A connection handle still in CLOSED, carrying stale sequence state. -/
def connC8 : RdpConn :=
  { connBase with state := RdpState.CLOSED, rcv_cur := 7, snd_nxt := 42, snd_una := 40,
                  snd_iss := 40 }

/-- An out-of-sequence RST without an ACK. -/
def pktC8 : Packet :=
  { Packet.blank with hdr := { syn := false, ack := false, eak := false, rst := true,
                               seq_nr := 999, ack_nr := 0 } }

/-- C8 counterexample: the claim says an out-of-sequence RST received in any
state other than CLOSE_WAIT leaves the connection state unchanged, but a packet
arriving on a CLOSED connection first promotes it to LISTEN, so after the
discarded RST the state is LISTEN, not the original CLOSED. -/
theorem rst_in_closed_promotes_to_listen :
    connC8.state = RdpState.CLOSED ∧
    connC8.state ≠ RdpState.CLOSE_WAIT ∧
    pktC8.hdr.rst = true ∧
    pktC8.hdr.seq_nr ≠ connC8.rcv_cur + 1 ∧
    (csp_rdp_new_packet cfg0 0 connC8 pktC8).state = RdpState.LISTEN := by
  decide

/-- Behaviour of the RST handler on a connection not in CLOSE_WAIT: an
in-sequence RST answers with RST plus ACK and moves to CLOSE_WAIT after folding
a piggybacked ACK into snd_una; an out-of-sequence RST leaves everything but
that snd_una update untouched. -/
theorem handle_rst_spec (cfg : BuildCfg) (now : Nat) (c : RdpConn) (p : Packet)
    (hcw : c.state ≠ RdpState.CLOSE_WAIT) :
    (p.hdr.seq_nr = c.rcv_cur + 1 →
      (rdpHandleRst cfg now c p).state = RdpState.CLOSE_WAIT ∧
      (rdpHandleRst cfg now c p).snd_una =
        (if p.hdr.ack then p.hdr.ack_nr + 1 else c.snd_una) ∧
      (rdpHandleRst cfg now c p).sent = c.sent ++
        [{ Packet.blank with hdr := { syn := false, ack := true, eak := false, rst := true,
                                      seq_nr := c.snd_nxt, ack_nr := c.rcv_cur } }]) ∧
    (p.hdr.seq_nr ≠ c.rcv_cur + 1 →
      rdpHandleRst cfg now c p =
        (if p.hdr.ack then { c with snd_una := p.hdr.ack_nr + 1 } else c)) := by
  by_cases hak : p.hdr.ack = true
  · constructor
    · intro hseq
      simp only [rdpHandleRst, if_pos hak]
      rw [if_neg hcw, if_pos hseq]
      refine ⟨?_, ?_, ?_⟩
      · rw [discard_close_state]
      · rw [discard_close_snd_una]
        simp only [send_cmp_snd_una, if_pos hak]
      · rw [discard_close_sent]
        simp only [send_cmp_sent]
        rfl
    · intro hseq
      simp only [rdpHandleRst, if_pos hak]
      rw [if_neg hcw, if_neg hseq]
  · constructor
    · intro hseq
      simp only [rdpHandleRst, if_neg hak]
      rw [if_neg hcw, if_pos hseq]
      refine ⟨?_, ?_, ?_⟩
      · rw [discard_close_state]
      · rw [discard_close_snd_una]
        simp only [send_cmp_snd_una, if_neg hak]
      · rw [discard_close_sent]
        simp only [send_cmp_sent]
        rfl
    · intro hseq
      simp only [rdpHandleRst, if_neg hak]
      rw [if_neg hcw, if_neg hseq]

/-- C8 (amended): on receiving an RST while not in CLOSE_WAIT, a connection
still in CLOSED is first promoted to LISTEN with snd_iss 2000, snd_nxt 2001 and
snd_una 2000; writing c1 for the connection after this promotion, which is the
identity in every other state: if the ack flag is set, snd_una is first updated
to ack_nr + 1; then, if seq_nr = c1.rcv_cur + 1, the connection sends a RST plus
ACK carrying seq_nr = c1.snd_nxt and ack_nr = c1.rcv_cur and moves to
CLOSE_WAIT; otherwise the packet is discarded with no reply, and the state,
the sequence variables other than snd_una, and the queues of c1 are unchanged. -/
theorem rst_handling (cfg : BuildCfg) (now : Nat) (c : RdpConn) (p : Packet)
    (hrst : p.hdr.rst = true) (hcw : c.state ≠ RdpState.CLOSE_WAIT) :
    (p.hdr.seq_nr = (rdpPromote c).rcv_cur + 1 →
      (csp_rdp_new_packet cfg now c p).state = RdpState.CLOSE_WAIT ∧
      (csp_rdp_new_packet cfg now c p).snd_una =
        (if p.hdr.ack then p.hdr.ack_nr + 1 else (rdpPromote c).snd_una) ∧
      (csp_rdp_new_packet cfg now c p).sent = c.sent ++
        [{ Packet.blank with hdr := { syn := false, ack := true, eak := false, rst := true,
                                      seq_nr := (rdpPromote c).snd_nxt,
                                      ack_nr := (rdpPromote c).rcv_cur } }]) ∧
    (p.hdr.seq_nr ≠ (rdpPromote c).rcv_cur + 1 →
      (csp_rdp_new_packet cfg now c p).state = (rdpPromote c).state ∧
      (csp_rdp_new_packet cfg now c p).snd_una =
        (if p.hdr.ack then p.hdr.ack_nr + 1 else (rdpPromote c).snd_una) ∧
      (csp_rdp_new_packet cfg now c p).sent = c.sent ∧
      (csp_rdp_new_packet cfg now c p).rcv_cur = (rdpPromote c).rcv_cur ∧
      (csp_rdp_new_packet cfg now c p).snd_nxt = (rdpPromote c).snd_nxt ∧
      (csp_rdp_new_packet cfg now c p).tx_queue = c.tx_queue ∧
      (csp_rdp_new_packet cfg now c p).app_rx_queue = c.app_rx_queue) := by
  have hnp : csp_rdp_new_packet cfg now c p = rdpHandleRst cfg now (rdpPromote c) p := by
    rw [csp_rdp_new_packet, hrst]
    exact if_pos rfl
  have hc1cw : (rdpPromote c).state ≠ RdpState.CLOSE_WAIT := by
    rw [rdpPromote]
    split
    · intro h
      cases h
    · exact hcw
  have hspec := handle_rst_spec cfg now (rdpPromote c) p hc1cw
  constructor
  · intro hseq
    have h := hspec.1 hseq
    rw [hnp]
    refine ⟨h.1, h.2.1, ?_⟩
    rw [h.2.2, promote_sent]
  · intro hseq
    have h := hspec.2 hseq
    rw [hnp, h]
    by_cases hak : p.hdr.ack = true
    · rw [if_pos hak, if_pos hak]
      exact ⟨rfl, rfl, promote_sent c, rfl, rfl, promote_tx_queue c, promote_app_rx_queue c⟩
    · rw [if_neg hak, if_neg hak]
      exact ⟨rfl, rfl, promote_sent c, rfl, rfl, promote_tx_queue c, promote_app_rx_queue c⟩

/-- Witness instantiating rst_handling: an in-sequence RST with a piggybacked
ACK on the OPEN connBase moves it to CLOSE_WAIT with snd_una = 56. -/
theorem rst_handling_witness :
    (csp_rdp_new_packet cfg0 0 connBase
      { Packet.blank with hdr := { syn := false, ack := true, eak := false, rst := true,
                                   seq_nr := 2001, ack_nr := 55 } }).state =
        RdpState.CLOSE_WAIT ∧
    (csp_rdp_new_packet cfg0 0 connBase
      { Packet.blank with hdr := { syn := false, ack := true, eak := false, rst := true,
                                   seq_nr := 2001, ack_nr := 55 } }).snd_una = 56 :=
  ⟨((rst_handling cfg0 0 connBase
      { Packet.blank with hdr := { syn := false, ack := true, eak := false, rst := true,
                                   seq_nr := 2001, ack_nr := 55 } }
      rfl (by decide)).1 (by decide)).1,
   ((rst_handling cfg0 0 connBase
      { Packet.blank with hdr := { syn := false, ack := true, eak := false, rst := true,
                                   seq_nr := 2001, ack_nr := 55 } }
      rfl (by decide)).1 (by decide)).2.1⟩

/-- The data segments delivered to the application receive queue, in order; the
NULL sentinel entries are not data. -/
def deliveredSeqs (c : RdpConn) : List Nat := c.app_rx_queue.filterMap id

/-- Each delivered segment carries the successor of the previous one. -/
def DeliveryConsecutive (l : List Nat) : Prop := List.Chain' (fun a b => b = a + 1) l

/-- The delivery log is consecutive and its last entry, when any, is rcv_cur. -/
def DeliveryCore (c : RdpConn) : Prop :=
  DeliveryConsecutive (deliveredSeqs c) ∧
  ((deliveredSeqs c).getLast? = none ∨ (deliveredSeqs c).getLast? = some c.rcv_cur)

/-- Full delivery invariant: the core plus the fact that a connection in a
pre-handshake state, whose rcv_cur is about to be re-seeded, has an empty log. -/
def DeliveryInv (c : RdpConn) : Prop :=
  DeliveryCore c ∧
  ((c.state = RdpState.CLOSED ∨ c.state = RdpState.LISTEN ∨ c.state = RdpState.SYN_SENT) →
    deliveredSeqs c = [])

theorem core_step {l : List Nat} {r : Nat}
    (h1 : List.Chain' (fun a b => b = a + 1) l)
    (h2 : l.getLast? = none ∨ l.getLast? = some r) :
    List.Chain' (fun a b => b = a + 1) (l ++ [r + 1]) ∧
    (l ++ [r + 1]).getLast? = some (r + 1) := by
  constructor
  · rw [List.chain'_append]
    refine ⟨h1, List.chain'_singleton _, ?_⟩
    intro x hx y hy
    rcases h2 with h | h
    · rw [h] at hx
      simp at hx
    · rw [h] at hx
      have hx' : r = x := by simpa using hx
      have hy' : r + 1 = y := by simpa using hy
      omega
  · simp

/-- Transfer of the delivery core along an operation that keeps the log and
rcv_cur. -/
theorem core_congr {c c' : RdpConn} (h : DeliveryCore c)
    (happ : deliveredSeqs c' = deliveredSeqs c) (hrcv : c'.rcv_cur = c.rcv_cur) :
    DeliveryCore c' := by
  obtain ⟨h1, h2⟩ := h
  exact ⟨by rw [DeliveryConsecutive, happ]; exact h1, by rw [happ, hrcv]; exact h2⟩

/-- Transfer of the delivery core along a delivery of the next in-order
segment. -/
theorem core_of_append {c c' : RdpConn} (h : DeliveryCore c)
    (happ : c'.app_rx_queue = c.app_rx_queue ++ [some (c.rcv_cur + 1)])
    (hrcv : c'.rcv_cur = c.rcv_cur + 1) : DeliveryCore c' := by
  obtain ⟨h1, h2⟩ := h
  have hds : deliveredSeqs c' = deliveredSeqs c ++ [c.rcv_cur + 1] := by
    rw [deliveredSeqs, happ, List.filterMap_append]
    rfl
  have hstep := core_step h1 h2
  exact ⟨by rw [DeliveryConsecutive, hds]; exact hstep.1,
         by rw [hds, hrcv]; exact Or.inr hstep.2⟩

/-- An empty delivery log satisfies the core for any rcv_cur. -/
theorem core_of_empty {c : RdpConn} (h : deliveredSeqs c = []) : DeliveryCore c := by
  refine ⟨?_, Or.inl ?_⟩ <;> rw [h]
  · exact List.chain'_nil
  · rfl

/-- A successful reassembly scan returns a packet carrying the target seq_nr. -/
theorem rxScan_seq (target : Nat) : ∀ (q acc : List Packet) (p : Packet) (q' : List Packet),
    rxScan target q acc = some (p, q') → p.hdr.seq_nr = target := by
  intro q
  induction q with
  | nil =>
    intro acc p q' h
    cases h
  | cons x xs ih =>
    intro acc p q' h
    rw [rxScan] at h
    split at h
    · rename_i hx
      cases h
      exact hx
    · exact ih _ p q' h

/-- The reassembly drain preserves the delivery core: every segment it delivers
is exactly rcv_cur + 1 at its delivery time, and rcv_cur advances with it. -/
theorem rxFlushGo_delivery : ∀ (fuel : Nat) (c : RdpConn),
    DeliveryCore c → DeliveryCore (rxFlushGo fuel c) := by
  intro fuel
  induction fuel with
  | zero =>
    intro c h
    exact h
  | succ n ih =>
    intro c h
    rw [rxFlushGo]
    cases hscan : rxScan (c.rcv_cur + 1) c.rdp_rx_queue [] with
    | none => exact h
    | some pq =>
      obtain ⟨p1, q1⟩ := pq
      have hseq : p1.hdr.seq_nr = c.rcv_cur + 1 := rxScan_seq _ _ _ _ _ hscan
      apply ih
      apply core_of_append h
      · rw [receive_data_app_rx_queue, hseq]
      · simp only [receive_data_rcv_cur]

/-- The reassembly drain entry point preserves the delivery core. -/
theorem rx_queue_flush_delivery (c : RdpConn) (h : DeliveryCore c) :
    DeliveryCore (csp_rdp_rx_queue_flush c) :=
  rxFlushGo_delivery c.rdp_rx_queue.length c h

theorem core_congr_app {c c' : RdpConn} (h : DeliveryCore c)
    (happ : c'.app_rx_queue = c.app_rx_queue) (hrcv : c'.rcv_cur = c.rcv_cur) :
    DeliveryCore c' :=
  core_congr h (by rw [deliveredSeqs, happ]; rfl) hrcv

theorem ds_discard_close (c : RdpConn) :
    deliveredSeqs (rdpDiscardClose c) = deliveredSeqs c := by
  rw [deliveredSeqs, discard_close_app_rx_queue, List.filterMap_append]
  split <;> simp [deliveredSeqs]

theorem inv_congr {c c' : RdpConn} (h : DeliveryInv c)
    (happ : c'.app_rx_queue = c.app_rx_queue) (hrcv : c'.rcv_cur = c.rcv_cur)
    (hst : c'.state = c.state) : DeliveryInv c' := by
  have hds : deliveredSeqs c' = deliveredSeqs c := by
    rw [deliveredSeqs, happ]
    rfl
  refine ⟨core_congr h.1 hds hrcv, fun hb => ?_⟩
  rw [hds]
  rw [hst] at hb
  exact h.2 hb

theorem inv_discard_close (c : RdpConn) (h : DeliveryInv c) :
    DeliveryInv (rdpDiscardClose c) := by
  refine ⟨core_congr h.1 (ds_discard_close c) (discard_close_rcv_cur c), fun hb => ?_⟩
  rw [ds_discard_close]
  rw [discard_close_state] at hb
  exact h.2 hb

theorem inv_of_ds_empty {c : RdpConn} (h : deliveredSeqs c = []) : DeliveryInv c :=
  ⟨core_of_empty h, fun _ => h⟩

theorem close_delivery (c : RdpConn) : DeliveryInv (csp_close c) :=
  inv_of_ds_empty rfl

/-- The data phase preserves the delivery core: the only delivery it performs is
the in-order segment rcv_cur + 1 followed by the reassembly drain. -/
theorem data_phase_core (cfg now c p) (h : DeliveryCore c) :
    DeliveryCore (rdpDataPhase cfg now c p) := by
  rw [rdpDataPhase]
  split
  · split
    · exact core_congr_app h (by rw [flush_eack_only_tx]) (by rw [flush_eack_only_tx])
    · exact h
  · split
    · exact h
    · split
      · split
        · rename_i c3 heq
          have ha := rx_queue_add_app_rx_queue cfg c p p.hdr.seq_nr
          have hr := rx_queue_add_rcv_cur cfg c p p.hdr.seq_nr
          rw [heq] at ha hr
          exact core_congr_app h ha hr
        · rename_i c3 heq
          have ha := rx_queue_add_app_rx_queue cfg c p p.hdr.seq_nr
          have hr := rx_queue_add_rcv_cur cfg c p p.hdr.seq_nr
          rw [heq] at ha hr
          exact core_congr_app h (by rw [send_eack_app_rx_queue, ha])
            (by rw [send_eack_rcv_cur, hr])
      · rename_i hne
        have hseq : p.hdr.seq_nr = c.rcv_cur + 1 := by omega
        apply rx_queue_flush_delivery
        have hc4 : DeliveryCore
            ({ csp_rdp_receive_data c p with rcv_cur := p.hdr.seq_nr } : RdpConn) := by
          apply core_of_append h
          · rw [receive_data_app_rx_queue, hseq]
          · simp only [hseq]
        simp only []
        split
        · split
          · exact core_congr_app hc4 (send_cmp_app_rx_queue cfg now _ none true false false
              false _ _ false) (send_cmp_rcv_cur cfg now _ none true false false false _ _ false)
          · exact hc4
        · exact core_congr_app hc4 (send_cmp_app_rx_queue cfg now _ none true false false
            false _ _ false) (send_cmp_rcv_cur cfg now _ none true false false false _ _ false)

theorem promote_state_ne_closed (c : RdpConn) : (rdpPromote c).state ≠ RdpState.CLOSED := by
  rw [rdpPromote]
  split
  · intro h
    cases h
  · rename_i h
    exact h

theorem promote_delivery (c : RdpConn) (h : DeliveryInv c) : DeliveryInv (rdpPromote c) := by
  rw [rdpPromote]
  split
  · rename_i hC
    have hempty : deliveredSeqs c = [] := h.2 (Or.inl hC)
    exact inv_of_ds_empty hempty
  · exact h

theorem inv_of_core_state {c : RdpConn} (hcore : DeliveryCore c)
    (h1 : c.state ≠ RdpState.CLOSED) (h2 : c.state ≠ RdpState.LISTEN)
    (h3 : c.state ≠ RdpState.SYN_SENT) : DeliveryInv c := by
  refine ⟨hcore, fun hb => ?_⟩
  rcases hb with h | h | h
  · exact absurd h h1
  · exact absurd h h2
  · exact absurd h h3

theorem handle_rst_delivery (cfg : BuildCfg) (now : Nat) (c : RdpConn) (p : Packet)
    (h : DeliveryInv c) : DeliveryInv (rdpHandleRst cfg now c p) := by
  simp only [rdpHandleRst]
  by_cases hak : p.hdr.ack = true
  · simp only [hak, if_pos]
    have h2 : DeliveryInv ({ c with snd_una := p.hdr.ack_nr + 1 } : RdpConn) :=
      inv_congr h rfl rfl rfl
    split
    · exact close_delivery _
    · split
      · apply inv_discard_close
        apply inv_of_core_state
        · exact core_congr_app h2.1
            (send_cmp_app_rx_queue cfg now _ none true false true false _ _ false)
            (send_cmp_rcv_cur cfg now _ none true false true false _ _ false)
        · intro hh
          exact RdpState.noConfusion hh
        · intro hh
          exact RdpState.noConfusion hh
        · intro hh
          exact RdpState.noConfusion hh
      · exact h2
  · simp only [hak, if_neg, Bool.false_eq_true, if_false]
    split
    · exact close_delivery _
    · split
      · apply inv_discard_close
        apply inv_of_core_state
        · exact core_congr_app h.1
            (send_cmp_app_rx_queue cfg now _ none true false true false _ _ false)
            (send_cmp_rcv_cur cfg now _ none true false true false _ _ false)
        · intro hh
          exact RdpState.noConfusion hh
        · intro hh
          exact RdpState.noConfusion hh
        · intro hh
          exact RdpState.noConfusion hh
      · exact h

theorem listen_delivery (cfg : BuildCfg) (now : Nat) (c : RdpConn) (p : Packet)
    (hst : c.state = RdpState.LISTEN) (h : DeliveryInv c) :
    DeliveryInv (rdpListen cfg now c p) := by
  have hempty : deliveredSeqs c = [] := h.2 (Or.inr (Or.inl hst))
  rw [rdpListen]
  split
  · apply inv_discard_close
    exact inv_congr h (send_cmp_app_rx_queue cfg now c none false false true false _ _ false)
      (send_cmp_rcv_cur cfg now c none false false true false _ _ false)
      (send_cmp_state cfg now c none false false true false _ _ false)
  · split
    · apply inv_of_ds_empty
      rw [deliveredSeqs, send_cmp_app_rx_queue]
      exact hempty
    · exact inv_discard_close c h

theorem synsent_delivery (cfg : BuildCfg) (now : Nat) (c : RdpConn) (p : Packet)
    (hst : c.state = RdpState.SYN_SENT) (h : DeliveryInv c) :
    DeliveryInv (rdpSynSent cfg now c p) := by
  have hempty : deliveredSeqs c = [] := h.2 (Or.inr (Or.inr hst))
  rw [rdpSynSent]
  split
  · split
    · exact inv_of_ds_empty hempty
    · apply inv_of_ds_empty
      rw [deliveredSeqs, send_cmp_app_rx_queue]
      exact hempty
  · split
    · exact inv_congr h (send_cmp_app_rx_queue cfg now c none false false true false _ _ false)
        (send_cmp_rcv_cur cfg now c none false false true false _ _ false)
        (send_cmp_state cfg now c none false false true false _ _ false)
    · exact inv_discard_close c h

theorem closewait_delivery (cfg : BuildCfg) (now : Nat) (c : RdpConn) (p : Packet)
    (h : DeliveryInv c) : DeliveryInv (rdpCloseWait cfg now c p) := by
  rw [rdpCloseWait]
  split
  · exact h
  · split
    · exact h
    · exact inv_congr h (send_cmp_app_rx_queue cfg now _ none true false true false _ _ false)
        (send_cmp_rcv_cur cfg now _ none true false true false _ _ false)
        (send_cmp_state cfg now _ none true false true false _ _ false)

theorem openstates_delivery (cfg : BuildCfg) (now : Nat) (c : RdpConn) (p : Packet)
    (hst : c.state = RdpState.SYN_RCVD ∨ c.state = RdpState.OPEN) (h : DeliveryInv c) :
    DeliveryInv (rdpOpenStates cfg now c p) := by
  rw [rdpOpenStates]
  split
  · exact inv_discard_close c h
  · split
    · exact inv_congr h (seq_reject_app_rx_queue cfg now c) (seq_reject_rcv_cur cfg now c)
        (seq_reject_state cfg now c)
    · split
      · exact inv_discard_close c h
      · split
        · exact inv_discard_close c h
        · split
          · exact inv_discard_close c h
          · refine ⟨data_phase_core cfg now _ p
              (core_congr_app h.1 (by split <;> rfl) (by split <;> rfl)), fun hb => ?_⟩
            exfalso
            rw [data_phase_state] at hb
            rcases hst with hS | hO
            · simp [hS] at hb
            · simp [hO] at hb

theorem new_packet_delivery (cfg : BuildCfg) (now : Nat) (c : RdpConn) (p : Packet)
    (h : DeliveryInv c) : DeliveryInv (csp_rdp_new_packet cfg now c p) := by
  have h1 : DeliveryInv (rdpPromote c) := promote_delivery c h
  by_cases hrst : p.hdr.rst = true
  · have heq : csp_rdp_new_packet cfg now c p = rdpHandleRst cfg now (rdpPromote c) p := by
      rw [csp_rdp_new_packet, hrst]
      exact if_pos rfl
    rw [heq]
    exact handle_rst_delivery cfg now (rdpPromote c) p h1
  · have hF : p.hdr.rst = false := by
      revert hrst
      cases p.hdr.rst <;> simp
    have heq : csp_rdp_new_packet cfg now c p =
        (match (rdpPromote c).state with
         | RdpState.LISTEN => rdpListen cfg now (rdpPromote c) p
         | RdpState.SYN_SENT => rdpSynSent cfg now (rdpPromote c) p
         | RdpState.SYN_RCVD => rdpOpenStates cfg now (rdpPromote c) p
         | RdpState.OPEN => rdpOpenStates cfg now (rdpPromote c) p
         | RdpState.CLOSE_WAIT => rdpCloseWait cfg now (rdpPromote c) p
         | RdpState.CLOSED => rdpDiscardClose (rdpPromote c)) := by
      rw [csp_rdp_new_packet, hF]
      exact if_neg (by simp)
    rw [heq]
    cases hstate : (rdpPromote c).state with
    | CLOSED => exact absurd hstate (promote_state_ne_closed c)
    | LISTEN => exact listen_delivery cfg now _ p hstate h1
    | SYN_SENT => exact synsent_delivery cfg now _ p hstate h1
    | SYN_RCVD => exact openstates_delivery cfg now _ p (Or.inl hstate) h1
    | OPEN => exact openstates_delivery cfg now _ p (Or.inr hstate) h1
    | CLOSE_WAIT => exact closewait_delivery cfg now _ p h1

theorem tick_delivery (cfg : BuildCfg) (now : Nat) (c : RdpConn) (h : DeliveryInv c) :
    DeliveryInv (csp_rdp_check_timeouts cfg now c) := by
  simp only [csp_rdp_check_timeouts]
  split
  · exact close_delivery _
  · split
    · exact close_delivery _
    · split
      · exact inv_congr h (send_cmp_app_rx_queue cfg now _ none true false false false _ _ false)
          (send_cmp_rcv_cur cfg now _ none true false false false _ _ false)
          (send_cmp_state cfg now _ none true false false false _ _ false)
      · exact inv_congr h rfl rfl rfl

theorem send_delivery (cfg : BuildCfg) (now : Nat) (c : RdpConn) (dataLen : Nat)
    (lockOk wake allocOk : Bool) (h : DeliveryInv c) :
    DeliveryInv (csp_rdp_send cfg now c dataLen lockOk wake allocOk).2 := by
  simp only [csp_rdp_send]
  split
  · exact h
  · split
    · exact h
    · split
      · exact h
      · split
        · exact inv_congr h rfl rfl rfl
        · split
          · exact inv_congr h rfl rfl rfl
          · exact inv_congr h rfl rfl rfl

/-- An externally driven operation on one connection: a packet handed up by the
datagram layer, or a periodic tick from the router task. -/
inductive RdpOp where
  | deliver (p : Packet) (now : Nat)
  | tick (now : Nat)
deriving DecidableEq, Repr

/-- One operation applied to the connection. -/
def rdpStep (cfg : BuildCfg) (c : RdpConn) : RdpOp → RdpConn
  | RdpOp.deliver p now => csp_rdp_new_packet cfg now c p
  | RdpOp.tick now => csp_rdp_check_timeouts cfg now c

/-- A whole sequence of operations applied in order. -/
def rdpRun (cfg : BuildCfg) (c : RdpConn) (ops : List RdpOp) : RdpConn :=
  ops.foldl (rdpStep cfg) c

theorem rdpRun_delivery (cfg : BuildCfg) (ops : List RdpOp) :
    ∀ c : RdpConn, DeliveryInv c → DeliveryInv (rdpRun cfg c ops) := by
  induction ops with
  | nil =>
    intro c h
    exact h
  | cons op rest ih =>
    intro c h
    have hstep : DeliveryInv (rdpStep cfg c op) := by
      cases op with
      | deliver p now => exact new_packet_delivery cfg now c p h
      | tick now => exact tick_delivery cfg now c h
    exact ih (rdpStep cfg c op) hstep

/-- C5: across any sequence of deliver and tick operations, starting from a
connection whose delivery log is consecutive and ends at rcv_cur, with the log
empty in the pre-handshake states, every segment delivered to the application
receive queue carries a seq_nr exactly one greater than the previously delivered
segment: both the in-order path and the reassembly-queue drain only ever deliver
the segment rcv_cur + 1 and advance rcv_cur with it, so the delivery log stays
consecutive, with no gaps and no duplicates, and the invariant is maintained. -/
theorem delivery_strictly_in_sequence (cfg : BuildCfg) (c : RdpConn) (ops : List RdpOp)
    (h : DeliveryInv c) :
    DeliveryConsecutive (deliveredSeqs (rdpRun cfg c ops)) ∧
    DeliveryInv (rdpRun cfg c ops) := by
  have hs := rdpRun_delivery cfg ops c h
  exact ⟨hs.1.1, hs⟩

/-- In-order data segment 2001 for the delivery-order witness. -/
def pktData2001 : Packet :=
  { Packet.blank with hdr := { syn := false, ack := true, eak := false, rst := false,
                               seq_nr := 2001, ack_nr := 1000 }, dataLen := 5 }

/-- Out-of-order data segment 2003 for the delivery-order witness. -/
def pktData2003 : Packet :=
  { Packet.blank with hdr := { syn := false, ack := true, eak := false, rst := false,
                               seq_nr := 2003, ack_nr := 1000 }, dataLen := 5 }

/-- Gap-filling data segment 2002 for the delivery-order witness. -/
def pktData2002 : Packet :=
  { Packet.blank with hdr := { syn := false, ack := true, eak := false, rst := false,
                               seq_nr := 2002, ack_nr := 1000 }, dataLen := 5 }

/-- An out-of-order arrival schedule followed by a tick. -/
def opsC5 : List RdpOp :=
  [RdpOp.deliver pktData2001 0, RdpOp.deliver pktData2003 1,
   RdpOp.deliver pktData2002 2, RdpOp.tick 3]

/-- Witness instantiating delivery_strictly_in_sequence on connBase and the
out-of-order schedule opsC5. -/
theorem delivery_strictly_in_sequence_witness :
    DeliveryConsecutive (deliveredSeqs (rdpRun cfg0 connBase opsC5)) :=
  (delivery_strictly_in_sequence cfg0 connBase opsC5
    ⟨core_of_empty rfl, fun _ => rfl⟩).1
